import Mathlib

/-!
Verification development for the jobfit-agent pipeline core.

The definitions below are a shallow embedding of the TypeScript sources:

* `src/agent/state.ts`  — agent states, pipeline context, `transitionTo`,
  `addTokenUsage` (the current revision of `transitionTo` records the
  duration of the previous history entry and performs no legality check;
  the earlier revision's declared-successor table `STATE_TRANSITIONS` is
  also embedded, for stating transition-legality claims).
* `src/agent/validator.ts` — `validateOutputs` and its string predicates.
* `src/agent/graph.ts` — node handlers, `createAgentGraph`, `runGraph`.
* `src/agent/orchestrator.ts` — `runOrchestrator`.
* `src/llm/client.ts` — the retry loop of `LLMClient.structured` and the
  per-instance usage accounting of `getUsageSummary`.

JavaScript mutation is modelled by explicit state passing, `Date.now()` by
an explicit clock `Nat → Nat` indexed by transition step, thrown exceptions
by explicit result constructors, and the unbounded `while` loop of the
graph runner by a fuel parameter (the extra `outOfFuel` result is a model
artifact; real runs of the agent graph terminate well inside the fuel).
-/

namespace JobFit

/-- The agent states, from the `AgentState` enum in `state.ts`. -/
inductive AgentState where
  | INTAKE
  | PARSE_JD
  | PARSE_RESUME
  | ANALYZE_FIT
  | GENERATE_OUTPUTS
  | VALIDATE
  | DONE
  | ERROR
deriving DecidableEq, Repr, Inhabited

/-- The string value of each `AgentState` enum member (the TS enum is
string-valued; `${currentState}` interpolates these). -/
def stateName : AgentState → String
  | .INTAKE => "INTAKE"
  | .PARSE_JD => "PARSE_JD"
  | .PARSE_RESUME => "PARSE_RESUME"
  | .ANALYZE_FIT => "ANALYZE_FIT"
  | .GENERATE_OUTPUTS => "GENERATE_OUTPUTS"
  | .VALIDATE => "VALIDATE"
  | .DONE => "DONE"
  | .ERROR => "ERROR"

/-- The declared-successor table `STATE_TRANSITIONS` from the earlier
revision of `state.ts` (the revision whose `transitionTo` checked
legality); it is the "handler-declared successor" relation of the spec. -/
def STATE_TRANSITIONS : AgentState → List AgentState
  | .INTAKE => [.PARSE_JD]
  | .PARSE_JD => [.PARSE_RESUME, .ERROR]
  | .PARSE_RESUME => [.ANALYZE_FIT, .ERROR]
  | .ANALYZE_FIT => [.GENERATE_OUTPUTS, .ERROR]
  | .GENERATE_OUTPUTS => [.VALIDATE, .ERROR]
  | .VALIDATE => [.GENERATE_OUTPUTS, .DONE, .ERROR]
  | .DONE => []
  | .ERROR => []

/-- One entry of `PipelineContext.stateHistory`:
`{state, timestamp, durationMs?}`. -/
structure HistoryEntry where
  state : AgentState
  timestamp : Nat
  durationMs : Option Nat
deriving DecidableEq, Repr

/-- The fields of a JD skill used by the pipeline core (`SkillSchema`). -/
structure Skill where
  name : String
deriving DecidableEq, Repr

/-- The fields of `ParsedJD` read by the quality validator. -/
structure ParsedJD where
  company : String
  requiredSkills : List Skill
  techStack : List String
deriving DecidableEq, Repr

/-- `GeneratedOutputs` — three independently nullable artifacts. -/
structure GeneratedOutputs where
  coverLetter : Option String
  tailoredBullets : Option String
  interviewPrep : Option String
deriving DecidableEq, Repr

/-- `ValidationResult` from `state.ts`. -/
structure ValidationResult where
  passed : Bool
  coverLetterValid : Bool
  bulletsValid : Bool
  interviewPrepValid : Bool
  issues : List String
deriving DecidableEq, Repr

/-- `PipelineContext` from `state.ts`.  `parsedResume` and `fitAnalysis`
are carried as `Option Unit`: no claim (and no embedded operation other
than storing them) inspects their contents. -/
structure PipelineContext where
  jdText : String
  resumeText : String
  parsedJD : Option ParsedJD
  parsedResume : Option Unit
  fitAnalysis : Option Unit
  outputs : GeneratedOutputs
  validation : Option ValidationResult
  validationAttempts : Nat
  currentState : AgentState
  stateHistory : List HistoryEntry
  errors : List String
  startTime : Nat
  tokenUsage : Nat × Nat
deriving DecidableEq, Repr

/-- `createPipelineContext` from `state.ts`; `now` models `Date.now()`. -/
def createPipelineContext (now : Nat) (jdText resumeText : String) : PipelineContext :=
  { jdText := jdText
  , resumeText := resumeText
  , parsedJD := none
  , parsedResume := none
  , fitAnalysis := none
  , outputs := { coverLetter := none, tailoredBullets := none, interviewPrep := none }
  , validation := none
  , validationAttempts := 0
  , currentState := .INTAKE
  , stateHistory := [{ state := .INTAKE, timestamp := now, durationMs := none }]
  , errors := []
  , startTime := now
  , tokenUsage := (0, 0) }

/-- The duration-recording step of the current `transitionTo`: the last
history entry, if any, gets `durationMs := now - timestamp` unless it
already holds a non-zero duration (the JS guard `!lastEntry.durationMs`
treats both `undefined` and `0` as unset). -/
def closeLast (now : Nat) : List HistoryEntry → List HistoryEntry
  | [] => []
  | [e] =>
      if e.durationMs = none ∨ e.durationMs = some 0 then
        [{ e with durationMs := some (now - e.timestamp) }]
      else
        [e]
  | e :: rest => e :: closeLast now rest

/-- `transitionTo` from the current revision of `state.ts`: record the
duration of the previous history entry, append an entry for `next`, and
set `currentState := next`.  No legality check is performed. -/
def transitionTo (now : Nat) (ctx : PipelineContext) (next : AgentState) : PipelineContext :=
  { ctx with
      stateHistory := closeLast now ctx.stateHistory ++ [{ state := next, timestamp := now, durationMs := none }]
    , currentState := next }

/-- `addTokenUsage` from `state.ts`. -/
def addTokenUsage (ctx : PipelineContext) (input output : Nat) : PipelineContext :=
  { ctx with tokenUsage := (ctx.tokenUsage.1 + input, ctx.tokenUsage.2 + output) }

/-! ### String predicates used by `validator.ts` -/

/-- Whitespace characters matched by the JS regex class `\s` (the
characters relevant to the validator's inputs). -/
def isJsWhitespace (c : Char) : Bool :=
  c = ' ' || c = '\t' || c = '\n' || c = '\r' || c = '\x0b' || c = '\x0c'

/-- Single-pass model of JavaScript `s.split(/\s+/)`: segments between
maximal whitespace runs, with an empty leading segment when the string
starts with whitespace and an empty trailing segment when it ends with
whitespace (`"".split` yields `[""]`).  `inWS` records whether the scan
is inside a whitespace run whose segment boundary is pending. -/
def splitWsAux : List Char → Bool → List Char → List (List Char)
  | [], inWS, cur => if inWS then [cur.reverse, []] else [cur.reverse]
  | c :: cs, inWS, cur =>
      if isJsWhitespace c then
        splitWsAux cs true cur
      else if inWS then
        cur.reverse :: splitWsAux cs false [c]
      else
        splitWsAux cs false (c :: cur)

/-- `coverLetter.split(/\s+/).length` from `validator.ts`. -/
def wordCount (s : String) : Nat :=
  (splitWsAux s.data false []).length

/-- JavaScript `s.toLowerCase()` (character-wise lowering; the inputs
here are ASCII). -/
def jsToLower (s : String) : String :=
  ⟨s.data.map Char.toLower⟩

/-- JavaScript `hay.includes(needle)` (substring containment). -/
def jsIncludes (hay needle : String) : Bool :=
  (List.range (hay.data.length + 1)).any fun i => needle.data.isPrefixOf (hay.data.drop i)

/-- JavaScript `s.split(" ")[0]` — the prefix of `s` before the first
space (the whole of `s` when it has no space, `""` when it starts with
one). -/
def firstSpaceToken (s : String) : String :=
  ⟨s.data.takeWhile (fun c => c ≠ ' ')⟩

/-- Split a character list at every occurrence of a separator (pieces
between separators, empty pieces kept — the `^` anchor positions of a
multiline regex). -/
def splitOnChar (sep : Char) : List Char → List Char → List (List Char)
  | [], cur => [cur.reverse]
  | c :: cs, cur =>
      if c = sep then cur.reverse :: splitOnChar sep cs []
      else splitOnChar sep cs (c :: cur)

/-- `(tailoredBullets.match(/^- /gm) || []).length` from `validator.ts`:
the number of lines (pieces between `\n`s) starting with `"- "`. -/
def bulletCount (s : String) : Nat :=
  ((splitOnChar '\n' s.data []).filter (fun l => ('-' :: ' ' :: []).isPrefixOf l)).length

/-! ### `validateOutputs` (`src/agent/validator.ts`) -/

def MAX_COVER_LETTER_WORDS : Nat := 450

def MIN_COVER_LETTER_WORDS : Nat := 150

def MIN_BULLETS : Nat := 4

/-- The cover-letter block of `validateOutputs`: its validity flag and
the issues it pushes, in push order. -/
def coverLetterCheck (outputs : GeneratedOutputs) (parsedJD : ParsedJD) : Bool × List String :=
  match outputs.coverLetter with
  | none => (false, [("Cover letter is missing")])
  | some cl =>
      let wc := wordCount cl
      let tooLong : Bool := decide (wc > MAX_COVER_LETTER_WORDS)
      let tooShort : Bool := decide (wc < MIN_COVER_LETTER_WORDS)
      let missingCompany : Bool :=
        !(jsIncludes (jsToLower cl) (firstSpaceToken (jsToLower parsedJD.company)))
      let missingSkill : Bool :=
        !(parsedJD.requiredSkills.any fun s => jsIncludes (jsToLower cl) (jsToLower s.name))
      ( !(tooLong || tooShort || missingCompany || missingSkill)
      , (if tooLong then
           [("Cover letter too long: " ++ toString wc ++ " words (max " ++ toString MAX_COVER_LETTER_WORDS ++ ")")]
         else []) ++
        (if tooShort then
           [("Cover letter too short: " ++ toString wc ++ " words (min " ++ toString MIN_COVER_LETTER_WORDS ++ ")")]
         else []) ++
        (if missingCompany then [("Cover letter doesn't mention the company name")] else []) ++
        (if missingSkill then [("Cover letter doesn't reference any required skills from the JD")] else []) )

/-- The resume-bullets block of `validateOutputs`. -/
def bulletsCheck (outputs : GeneratedOutputs) (parsedJD : ParsedJD) : Bool × List String :=
  match outputs.tailoredBullets with
  | none => (false, [("Resume bullets are missing")])
  | some tb =>
      let bc := bulletCount tb
      let tooFew : Bool := decide (bc < MIN_BULLETS)
      let keywordHits :=
        (parsedJD.techStack.map jsToLower).filter fun k => jsIncludes (jsToLower tb) k
      let fewKeywords : Bool := decide (keywordHits.length < 2)
      ( !(tooFew || fewKeywords)
      , (if tooFew then
           [("Too few resume bullets: " ++ toString bc ++ " (min " ++ toString MIN_BULLETS ++ ")")]
         else []) ++
        (if fewKeywords then
           [("Resume bullets only reference " ++ toString keywordHits.length ++ " tech stack keywords (need at least 2)")]
         else []) )

/-- The interview-prep block of `validateOutputs`. -/
def interviewPrepCheck (outputs : GeneratedOutputs) (parsedJD : ParsedJD) : Bool × List String :=
  match outputs.interviewPrep with
  | none => (false, [("Interview prep is missing")])
  | some ip =>
      let missingSections : Bool :=
        !(jsIncludes ip ("Technical Questions") && jsIncludes ip ("Behavioral Questions") &&
          jsIncludes ip ("Questions to Ask"))
      let missingCompany : Bool :=
        !(jsIncludes (jsToLower ip) (firstSpaceToken (jsToLower parsedJD.company)))
      ( !(missingSections || missingCompany)
      , (if missingSections then
           [("Interview prep missing one or more sections (Technical, Behavioral, Questions to Ask)")]
         else []) ++
        (if missingCompany then
           [("Interview prep appears generic — doesn't mention the company")]
         else []) )

/-- `validateOutputs` from `validator.ts`: the three blocks in source
order, the shared issues list being their concatenation and `passed` the
conjunction of the three flags. -/
def validateOutputs (outputs : GeneratedOutputs) (parsedJD : ParsedJD) : ValidationResult :=
  { passed :=
      (coverLetterCheck outputs parsedJD).1 && (bulletsCheck outputs parsedJD).1 &&
        (interviewPrepCheck outputs parsedJD).1
  , coverLetterValid := (coverLetterCheck outputs parsedJD).1
  , bulletsValid := (bulletsCheck outputs parsedJD).1
  , interviewPrepValid := (interviewPrepCheck outputs parsedJD).1
  , issues :=
      (coverLetterCheck outputs parsedJD).2 ++ (bulletsCheck outputs parsedJD).2 ++
        (interviewPrepCheck outputs parsedJD).2 }

/-! ### Agent graph and runner (`src/agent/graph.ts`) -/

def MAX_VALIDATION_ATTEMPTS : Nat := 2

/-- A node handler `(ctx, llm) => Promise<AgentState>`: it receives the
context, mutates it (returned updated), and either returns the next state
or throws (`Except.error` with the exception message).  Partial mutations
before a throw are kept, as in JS. -/
def NodeHandler : Type :=
  PipelineContext → PipelineContext × Except String AgentState

/-- `AgentGraph` — the handler registry (`Map.get` modelled as an
`Option`-valued function) plus the terminal-state set. -/
structure AgentGraph where
  nodes : AgentState → Option NodeHandler
  terminalStates : List AgentState

/-- The environment standing in for the LLM-backed collaborators of the
handlers: the parsed structures the model would return, the three
generator outputs for each generation attempt `n` (`gens n` is used on
the attempt for which `validationAttempts` was just incremented to `n`),
and the token usage reported per call. -/
structure LLMEnv where
  parsedJD : ParsedJD
  gens : Nat → String × String × String
  callUsage : Nat × Nat

/-- `handleParseJD`: store the parsed JD, add usage, go to PARSE_RESUME. -/
def handleParseJD (env : LLMEnv) : NodeHandler := fun ctx =>
  ( addTokenUsage { ctx with parsedJD := some env.parsedJD } env.callUsage.1 env.callUsage.2
  , .ok .PARSE_RESUME )

/-- `handleParseResume`: store the parsed resume, go to ANALYZE_FIT. -/
def handleParseResume (env : LLMEnv) : NodeHandler := fun ctx =>
  ( addTokenUsage { ctx with parsedResume := some () } env.callUsage.1 env.callUsage.2
  , .ok .ANALYZE_FIT )

/-- `handleAnalyzeFit`: store the fit analysis, go to GENERATE_OUTPUTS. -/
def handleAnalyzeFit (env : LLMEnv) : NodeHandler := fun ctx =>
  ( addTokenUsage { ctx with fitAnalysis := some () } env.callUsage.1 env.callUsage.2
  , .ok .GENERATE_OUTPUTS )

/-- The guard `!ctx.validation || !ctx.validation.<flag>Valid` of
`handleGenerateOutputs`: regenerate when there is no prior validation
result or it marked this artifact invalid. -/
def shouldGenerate (validation : Option ValidationResult) (flag : ValidationResult → Bool) : Bool :=
  match validation with
  | none => true
  | some v => !(flag v)

/-- `handleGenerateOutputs`: increment `validationAttempts`, run a
generator sub-task for each artifact whose guard holds (a skipped task is
`none`, mirroring the `null` entries of the `Promise.all` array), store
each produced artifact and its usage, and go to VALIDATE. -/
def handleGenerateOutputs (env : LLMEnv) : NodeHandler := fun ctx =>
  let ctx := { ctx with validationAttempts := ctx.validationAttempts + 1 }
  let g := env.gens ctx.validationAttempts
  let coverLetterResult : Option String :=
    if shouldGenerate ctx.validation ValidationResult.coverLetterValid then some g.1 else none
  let bulletsResult : Option String :=
    if shouldGenerate ctx.validation ValidationResult.bulletsValid then some g.2.1 else none
  let interviewResult : Option String :=
    if shouldGenerate ctx.validation ValidationResult.interviewPrepValid then some g.2.2 else none
  let ctx :=
    match coverLetterResult with
    | none => ctx
    | some s =>
        addTokenUsage { ctx with outputs := { ctx.outputs with coverLetter := some s } }
          env.callUsage.1 env.callUsage.2
  let ctx :=
    match bulletsResult with
    | none => ctx
    | some s =>
        addTokenUsage { ctx with outputs := { ctx.outputs with tailoredBullets := some s } }
          env.callUsage.1 env.callUsage.2
  let ctx :=
    match interviewResult with
    | none => ctx
    | some s =>
        addTokenUsage { ctx with outputs := { ctx.outputs with interviewPrep := some s } }
          env.callUsage.1 env.callUsage.2
  (ctx, .ok .VALIDATE)

/-- `handleValidate`: run the validator on the current outputs against
the stored parsed JD, store the result; DONE if passed, retry edge to
GENERATE_OUTPUTS while under the attempt limit, otherwise DONE anyway.
A missing `parsedJD` makes the JS non-null assertion blow up inside the
validator; that runtime error is modelled as a thrown error. -/
def handleValidate : NodeHandler := fun ctx =>
  match ctx.parsedJD with
  | none => (ctx, .error ("Cannot read properties of undefined"))
  | some jd =>
      let v := validateOutputs ctx.outputs jd
      let ctx := { ctx with validation := some v }
      if v.passed then (ctx, .ok .DONE)
      else if ctx.validationAttempts < MAX_VALIDATION_ATTEMPTS then (ctx, .ok .GENERATE_OUTPUTS)
      else (ctx, .ok .DONE)

/-- `createAgentGraph`: the five registered handlers and the two terminal
states. -/
def createAgentGraph (env : LLMEnv) : AgentGraph :=
  { nodes := fun s =>
      match s with
      | .PARSE_JD => some (handleParseJD env)
      | .PARSE_RESUME => some (handleParseResume env)
      | .ANALYZE_FIT => some (handleAnalyzeFit env)
      | .GENERATE_OUTPUTS => some (handleGenerateOutputs env)
      | .VALIDATE => some handleValidate
      | _ => none
  , terminalStates := [.DONE, .ERROR] }

/-- The observable outcome of `runGraph`: normal completion, a thrown
error (the missing-handler throw propagates to the caller, carrying the
context as it stood — mutations in place are visible to the caller), or
fuel exhaustion (model artifact for the unbounded `while`).  `notified`
is the sequence of states passed to the `onStateChange` callback. -/
inductive RunResult where
  | ok (ctx : PipelineContext) (notified : List AgentState)
  | fatal (msg : String) (ctx : PipelineContext) (notified : List AgentState)
  | outOfFuel (ctx : PipelineContext) (notified : List AgentState)
deriving DecidableEq, Repr

def RunResult.finalCtx : RunResult → PipelineContext
  | .ok ctx _ => ctx
  | .fatal _ ctx _ => ctx
  | .outOfFuel ctx _ => ctx

def RunResult.notified : RunResult → List AgentState
  | .ok _ ns => ns
  | .fatal _ _ ns => ns
  | .outOfFuel _ ns => ns

def RunResult.isOk : RunResult → Bool
  | .ok _ _ => true
  | _ => false

/-- The loop of `runGraph`.  Per iteration: exit on a terminal state
(final transition plus final callback); otherwise resolve the handler,
failing fast — before any mutation — when none is registered; then
transition into the state, notify, and run the handler, catching a
thrown error by recording `"<STATE>: <message>"` in `ctx.errors` and
continuing at ERROR.  `clock step` models `Date.now()` at the step-th
transition. -/
def runGraphAux (g : AgentGraph) (clock : Nat → Nat) (fuel step : Nat) (ctx : PipelineContext)
    (s : AgentState) (notified : List AgentState) : RunResult :=
  if g.terminalStates.contains s then
    .ok (transitionTo (clock step) ctx s) (notified ++ [s])
  else
    match g.nodes s with
    | none => .fatal ("No handler registered for state: " ++ stateName s) ctx notified
    | some h =>
        match fuel with
        | 0 => .outOfFuel ctx notified
        | fuel' + 1 =>
            match h (transitionTo (clock step) ctx s) with
            | (ctx2, .ok s') => runGraphAux g clock fuel' (step + 1) ctx2 s' (notified ++ [s])
            | (ctx2, .error m) =>
                runGraphAux g clock fuel' (step + 1)
                  { ctx2 with errors := ctx2.errors ++ [stateName s ++ (": ") ++ m] }
                  .ERROR (notified ++ [s])

/-- Fuel ample for any run of the agent graph (a run makes at most 7
handler iterations: three parse/analyze steps and at most two
generate/validate rounds). -/
def ORCHESTRATOR_FUEL : Nat := 16

/-- `runOrchestrator`: create the context (one INTAKE history entry),
build the graph, and run it from PARSE_JD. -/
def runOrchestrator (env : LLMEnv) (clock : Nat → Nat) (jdText resumeText : String) : RunResult :=
  runGraphAux (createAgentGraph env) clock ORCHESTRATOR_FUEL 1
    (createPipelineContext (clock 0) jdText resumeText) .PARSE_JD []

/-! ### Resilient call layer (`src/llm/client.ts`) -/

/-- What one live attempt of `LLMClient.structured` runs into, as
classified by its `catch` block: a validated success; an API error with
HTTP status 401; a Zod schema-validation failure carrying the list of
`(field path, message)` issues; or any other error (network failure,
malformed JSON, missing text block, ...) with its message. -/
inductive AttemptOutcome where
  | success (usage : Nat × Nat)
  | auth401
  | zodError (issues : List (String × String))
  | otherError (msg : String)
deriving DecidableEq, Repr

/-- The observable result of `structured` in live mode: a return after
some number of attempts, a thrown fatal error, or the re-raise of the
last observed error once the loop is exhausted. -/
inductive StructuredResult where
  | ok (attemptsMade : Nat)
  | fatal (msg : String) (attemptsMade : Nat)
  | exhausted (lastError : AttemptOutcome) (attemptsMade : Nat)
deriving DecidableEq, Repr

def StructuredResult.attemptsMade : StructuredResult → Nat
  | .ok n => n
  | .fatal _ n => n
  | .exhausted _ n => n

/-- The message of the fatal 401 error. -/
def invalidApiKeyMsg : String := "Invalid API key. Check your ANTHROPIC_API_KEY."

/-- `issues.map((e) => path: message).join(", ")` of the fatal schema
error. -/
def renderZodIssues (issues : List (String × String)) : String :=
  String.intercalate (", ") (issues.map fun e => e.1 ++ (": ") ++ e.2)

/-- The `for` loop of `structured`:  `attempt` is the current attempt
index, `left` the number of loop iterations still allowed after this one
(initially `maxRetries`).  The `catch` block: a 401 throws the fatal
auth message at once; a Zod error at attempt index ≥ 2 throws the
aggregated schema message; everything else is retried, and when the loop
ends the last observed error is re-raised. -/
def structuredGo (outcomes : Nat → AttemptOutcome) (attempt left : Nat) : StructuredResult :=
  match outcomes attempt with
  | .success _ => .ok (attempt + 1)
  | .auth401 => .fatal invalidApiKeyMsg (attempt + 1)
  | .zodError issues =>
      if attempt ≥ 2 then
        .fatal ("Schema validation failed after retries: " ++ renderZodIssues issues) (attempt + 1)
      else
        match left with
        | 0 => .exhausted (.zodError issues) (attempt + 1)
        | left' + 1 => structuredGo outcomes (attempt + 1) left'
  | .otherError m =>
      match left with
      | 0 => .exhausted (.otherError m) (attempt + 1)
      | left' + 1 => structuredGo outcomes (attempt + 1) left'
termination_by left

/-- `structured` in live (non-mock) mode, up to `maxRetries + 1` attempts
(`for (let attempt = 0; attempt <= maxRetries; attempt++)`). -/
def structuredRun (maxRetries : Nat) (outcomes : Nat → AttemptOutcome) : StructuredResult :=
  structuredGo outcomes 0 maxRetries

/-- An error `structured` retries rather than aborts on: any
non-auth/non-schema error, or a schema error while the attempt index is
under the fixed threshold of 2. -/
def retryableAt (outcomes : Nat → AttemptOutcome) (j : Nat) : Prop :=
  (∃ m, outcomes j = .otherError m) ∨ (∃ issues, outcomes j = .zodError issues ∧ j < 2)

/-! ### Per-instance usage accounting (`src/llm/client.ts`) -/

/-- `TokenUsageSummary`; `estimatedCost` is the exact value of the JS
arithmetic (modelled over ℚ). -/
structure TokenUsageSummary where
  totalInputTokens : Nat
  totalOutputTokens : Nat
  totalCalls : Nat
  estimatedCost : ℚ
deriving DecidableEq, Repr

/-- Fixed per-million-token input rate (`inputCostPerM = 3.0`). -/
def inputCostPerM : ℚ := 3

/-- Fixed per-million-token output rate (`outputCostPerM = 15.0`). -/
def outputCostPerM : ℚ := 15

/-- One step of the `reduce` inside `getUsageSummary()`. -/
def usageFoldStep (acc : TokenUsageSummary) (entry : Nat × Nat) : TokenUsageSummary :=
  { totalInputTokens := acc.totalInputTokens + entry.1
  , totalOutputTokens := acc.totalOutputTokens + entry.2
  , totalCalls := acc.totalCalls + 1
  , estimatedCost := 0 }

/-- `getUsageSummary()`: reduce the private usage log into totals, then
fill in the estimated cost from the fixed rates. -/
def getUsageSummary (usageLog : List (Nat × Nat)) : TokenUsageSummary :=
  let summary := usageLog.foldl usageFoldStep
    { totalInputTokens := 0, totalOutputTokens := 0, totalCalls := 0, estimatedCost := 0 }
  { summary with
      estimatedCost :=
        (summary.totalInputTokens : ℚ) / 1000000 * inputCostPerM +
          (summary.totalOutputTokens : ℚ) / 1000000 * outputCostPerM }

/-- The accounting state of one `LLMClient` instance: its private
`usageLog`. -/
structure LLMClientState where
  usageLog : List (Nat × Nat)
deriving DecidableEq, Repr

/-- A freshly constructed client: empty usage log. -/
def newLLMClient : LLMClientState := { usageLog := [] }

/-- `this.usageLog.push(usage)` — recording one call's usage on one
instance. -/
def recordUsage (c : LLMClientState) (input output : Nat) : LLMClientState :=
  { c with usageLog := c.usageLog ++ [(input, output)] }

/-- `client.getUsageSummary()`. -/
def clientSummary (c : LLMClientState) : TokenUsageSummary :=
  getUsageSummary c.usageLog

/-! ### Concrete inputs used by witnesses and counterexamples -/

/-- A small parsed JD: company `a`, one required skill `g`, two
tech-stack keywords (short names keep concrete evaluation cheap). -/
def jd0 : ParsedJD :=
  { company := "a", requiredSkills := [{ name := "g" }], techStack := [("g"), ("k")] }

/-- A cover letter that passes every predicate against `jd0`: 161 words,
mentions the company `a` and the required skill `g`. -/
def passingCoverLetter : String :=
  String.join (List.replicate 160 ("a ")) ++ "g"

/-- Bullets that pass against `jd0`: four `- ` lines, two tech keywords. -/
def passingBullets : String := "- g\n- k\n- c\n- d"

/-- Interview prep that passes against `jd0` (all three section headers,
and the company name `a` occurs in the lowered text). -/
def passingPrep : String :=
  "Technical Questions\nBehavioral Questions\nQuestions to Ask"

/-- A generator environment whose first generation attempt produces empty
artifacts (failing validation) and whose second produces passing ones. -/
def env0 : LLMEnv :=
  { parsedJD := jd0
  , gens := fun n => if n = 1 then ("", "", "") else (passingCoverLetter, passingBullets, passingPrep)
  , callUsage := (10, 5) }

/-- A deterministic clock for concrete runs. -/
def clock0 : Nat → Nat := fun n => n * 10

/-- A fresh pipeline context over dummy input texts. -/
def ctx0 : PipelineContext := createPipelineContext 0 ("jd") ("resume")

/-- `ctx0` moved to the terminal state DONE (no declared successors). -/
def ctxAtDone : PipelineContext := { ctx0 with currentState := .DONE }

/-- A graph with no registered handlers. -/
def emptyGraph : AgentGraph :=
  { nodes := fun _ => none, terminalStates := [.DONE, .ERROR] }

/-- A graph whose PARSE_JD handler always throws `Error("boom")`. -/
def boomGraph : AgentGraph :=
  { nodes := fun s =>
      match s with
      | .PARSE_JD => some (fun ctx => (ctx, .error ("boom")))
      | _ => none
  , terminalStates := [.DONE, .ERROR] }

/-- A context holding a prior validation result that marked the cover
letter and interview prep valid but the bullets invalid, with all three
artifacts present. -/
def ctxPartial : PipelineContext :=
  { ctx0 with
      outputs := { coverLetter := some ("oldCL"), tailoredBullets := some ("oldTB"), interviewPrep := some ("oldIP") }
    , validation := some
        { passed := false
        , coverLetterValid := true
        , bulletsValid := false
        , interviewPrepValid := true
        , issues := [("Too few resume bullets: 0 (min 4)")] }
    , validationAttempts := 1 }

/-! ### Spec-side derived notions used to state claims -/

/-- The cover-letter predicates of `validateOutputs` as an ordered list
of (violated?, issue message) pairs — used to state that every violated
predicate contributes exactly one issue. -/
def coverLetterChecks (outputs : GeneratedOutputs) (parsedJD : ParsedJD) : List (Bool × String) :=
  match outputs.coverLetter with
  | none => [(true, "Cover letter is missing")]
  | some cl =>
      let wc := wordCount cl
      [ (decide (wc > MAX_COVER_LETTER_WORDS),
          "Cover letter too long: " ++ toString wc ++ " words (max " ++ toString MAX_COVER_LETTER_WORDS ++ ")")
      , (decide (wc < MIN_COVER_LETTER_WORDS),
          "Cover letter too short: " ++ toString wc ++ " words (min " ++ toString MIN_COVER_LETTER_WORDS ++ ")")
      , (!(jsIncludes (jsToLower cl) (firstSpaceToken (jsToLower parsedJD.company))),
          "Cover letter doesn't mention the company name")
      , (!(parsedJD.requiredSkills.any fun s => jsIncludes (jsToLower cl) (jsToLower s.name)),
          "Cover letter doesn't reference any required skills from the JD") ]

/-- The resume-bullets predicates as (violated?, issue message) pairs. -/
def bulletsChecks (outputs : GeneratedOutputs) (parsedJD : ParsedJD) : List (Bool × String) :=
  match outputs.tailoredBullets with
  | none => [(true, "Resume bullets are missing")]
  | some tb =>
      let bc := bulletCount tb
      let keywordHits :=
        (parsedJD.techStack.map jsToLower).filter fun k => jsIncludes (jsToLower tb) k
      [ (decide (bc < MIN_BULLETS),
          "Too few resume bullets: " ++ toString bc ++ " (min " ++ toString MIN_BULLETS ++ ")")
      , (decide (keywordHits.length < 2),
          "Resume bullets only reference " ++ toString keywordHits.length ++ " tech stack keywords (need at least 2)") ]

/-- The interview-prep predicates as (violated?, issue message) pairs. -/
def interviewPrepChecks (outputs : GeneratedOutputs) (parsedJD : ParsedJD) : List (Bool × String) :=
  match outputs.interviewPrep with
  | none => [(true, "Interview prep is missing")]
  | some ip =>
      [ (!(jsIncludes ip ("Technical Questions") && jsIncludes ip ("Behavioral Questions") &&
            jsIncludes ip ("Questions to Ask")),
          "Interview prep missing one or more sections (Technical, Behavioral, Questions to Ask)")
      , (!(jsIncludes (jsToLower ip) (firstSpaceToken (jsToLower parsedJD.company))),
          "Interview prep appears generic — doesn't mention the company") ]

/-- The outputs after the first generation attempt of a run: no prior
validation result exists, so all three artifacts are the attempt-1
generator results. -/
def firstGen (env : LLMEnv) : GeneratedOutputs :=
  { coverLetter := some (env.gens 1).1
  , tailoredBullets := some (env.gens 1).2.1
  , interviewPrep := some (env.gens 1).2.2 }

/-- The outputs after the second generation attempt: artifacts the
attempt-1 validation marked valid are kept, the others are the attempt-2
generator results. -/
def secondGen (env : LLMEnv) : GeneratedOutputs :=
  { coverLetter :=
      if (validateOutputs (firstGen env) env.parsedJD).coverLetterValid then (firstGen env).coverLetter
      else some (env.gens 2).1
  , tailoredBullets :=
      if (validateOutputs (firstGen env) env.parsedJD).bulletsValid then (firstGen env).tailoredBullets
      else some (env.gens 2).2.1
  , interviewPrep :=
      if (validateOutputs (firstGen env) env.parsedJD).interviewPrepValid then (firstGen env).interviewPrep
      else some (env.gens 2).2.2 }

/-- The context of a run after the PARSE_JD step (scenario scaffolding
for the retry-cycle claim; `scn` = scenario). -/
def scnCtx1 (env : LLMEnv) (clock : Nat → Nat) (jdText resumeText : String) : PipelineContext :=
  (handleParseJD env
    (transitionTo (clock 1) (createPipelineContext (clock 0) jdText resumeText) .PARSE_JD)).1

/-- The context after the PARSE_RESUME step. -/
def scnCtx2 (env : LLMEnv) (clock : Nat → Nat) (jdText resumeText : String) : PipelineContext :=
  (handleParseResume env
    (transitionTo (clock 2) (scnCtx1 env clock jdText resumeText) .PARSE_RESUME)).1

/-- The context after the ANALYZE_FIT step. -/
def scnCtx3 (env : LLMEnv) (clock : Nat → Nat) (jdText resumeText : String) : PipelineContext :=
  (handleAnalyzeFit env
    (transitionTo (clock 3) (scnCtx2 env clock jdText resumeText) .ANALYZE_FIT)).1

/-- The context after the first GENERATE_OUTPUTS step. -/
def scnCtx4 (env : LLMEnv) (clock : Nat → Nat) (jdText resumeText : String) : PipelineContext :=
  (handleGenerateOutputs env
    (transitionTo (clock 4) (scnCtx3 env clock jdText resumeText) .GENERATE_OUTPUTS)).1

/-- The context after the first VALIDATE step. -/
def scnCtx5 (env : LLMEnv) (clock : Nat → Nat) (jdText resumeText : String) : PipelineContext :=
  (handleValidate
    (transitionTo (clock 5) (scnCtx4 env clock jdText resumeText) .VALIDATE)).1

/-- The context after the second GENERATE_OUTPUTS step. -/
def scnCtx6 (env : LLMEnv) (clock : Nat → Nat) (jdText resumeText : String) : PipelineContext :=
  (handleGenerateOutputs env
    (transitionTo (clock 6) (scnCtx5 env clock jdText resumeText) .GENERATE_OUTPUTS)).1

/-- The context after the second VALIDATE step. -/
def scnCtx7 (env : LLMEnv) (clock : Nat → Nat) (jdText resumeText : String) : PipelineContext :=
  (handleValidate
    (transitionTo (clock 7) (scnCtx6 env clock jdText resumeText) .VALIDATE)).1

/-- All history entries but the last carry a recorded duration. -/
def allButLastClosed (hist : List HistoryEntry) : Bool :=
  hist.dropLast.all fun e => e.durationMs.isSome

/-- Handlers of a graph never mutate the state history (true of every
handler of the agent graph; history bookkeeping belongs to the runner). -/
def preservesHistory (g : AgentGraph) : Prop :=
  ∀ s h, g.nodes s = some h → ∀ ctx, ((h ctx).1.stateHistory = ctx.stateHistory)

/-- Handlers of a graph never direct the run to INTAKE. -/
def neverReturnsIntake (g : AgentGraph) : Prop :=
  ∀ s h, g.nodes s = some h → ∀ ctx s', (h ctx).2 = .ok s' → s' ≠ .INTAKE

/-! ## Theorems -/

/-- The reduce of `getUsageSummary` accumulates the input sum, output
sum and entry count onto its accumulator. -/
lemma usageFold_totals (log : List (Nat × Nat)) (acc : TokenUsageSummary) :
    (log.foldl usageFoldStep acc).totalInputTokens = acc.totalInputTokens + (log.map Prod.fst).sum ∧
    (log.foldl usageFoldStep acc).totalOutputTokens = acc.totalOutputTokens + (log.map Prod.snd).sum ∧
    (log.foldl usageFoldStep acc).totalCalls = acc.totalCalls + log.length := by
  induction log generalizing acc with
  | nil => simp
  | cons e t ih =>
      obtain ⟨h1, h2, h3⟩ := ih (usageFoldStep acc e)
      refine ⟨?_, ?_, ?_⟩
      · rw [List.foldl_cons, h1]
        simp [usageFoldStep]
        omega
      · rw [List.foldl_cons, h2]
        simp [usageFoldStep]
        omega
      · rw [List.foldl_cons, h3]
        simp [usageFoldStep]
        omega

/-- C6: token accounting is per client instance: a fresh instance
reports an all-zero summary; for any usage log, `totalInputTokens` and
`totalOutputTokens` are the sums over that instance's private log,
`totalCalls` its length, and `estimatedCost` is
`totalIn/1e6 × 3 + totalOut/1e6 × 15`; and recording `{100,40}`,`{50,10}`
on instance A and `{10,5}` on instance B yields
`A = {150 in, 2 calls}` and `B = {10 in, 1 call}` — neither instance sees
the other's entries. -/
theorem usage_accounting_per_instance :
    clientSummary newLLMClient =
      { totalInputTokens := 0, totalOutputTokens := 0, totalCalls := 0, estimatedCost := 0 } ∧
    (∀ log : List (Nat × Nat),
      (getUsageSummary log).totalInputTokens = (log.map Prod.fst).sum ∧
      (getUsageSummary log).totalOutputTokens = (log.map Prod.snd).sum ∧
      (getUsageSummary log).totalCalls = log.length ∧
      (getUsageSummary log).estimatedCost =
        ((log.map Prod.fst).sum : ℚ) / 1000000 * inputCostPerM +
          ((log.map Prod.snd).sum : ℚ) / 1000000 * outputCostPerM) ∧
    (clientSummary (recordUsage (recordUsage newLLMClient 100 40) 50 10)).totalInputTokens = 150 ∧
    (clientSummary (recordUsage (recordUsage newLLMClient 100 40) 50 10)).totalCalls = 2 ∧
    (clientSummary (recordUsage newLLMClient 10 5)).totalInputTokens = 10 ∧
    (clientSummary (recordUsage newLLMClient 10 5)).totalCalls = 1 := by
  have fresh : clientSummary newLLMClient =
      { totalInputTokens := 0, totalOutputTokens := 0, totalCalls := 0, estimatedCost := 0 } := by
    simp [clientSummary, newLLMClient, getUsageSummary]
  refine ⟨fresh, fun log => ?_, by decide, by decide, by decide, by decide⟩
  obtain ⟨h1, h2, h3⟩ := usageFold_totals log
    { totalInputTokens := 0, totalOutputTokens := 0, totalCalls := 0, estimatedCost := 0 }
  refine ⟨?_, ?_, ?_, ?_⟩ <;> simp [getUsageSummary, h1, h2, h3]

/-- A successful attempt returns at once. -/
lemma structuredGo_success (outcomes : Nat → AttemptOutcome) (attempt left : Nat)
    (u : Nat × Nat) (h : outcomes attempt = .success u) :
    structuredGo outcomes attempt left = .ok (attempt + 1) := by
  conv_lhs => rw [structuredGo]
  simp [h]

/-- A 401 aborts at once with the invalid-API-key message. -/
lemma structuredGo_auth (outcomes : Nat → AttemptOutcome) (attempt left : Nat)
    (h : outcomes attempt = .auth401) :
    structuredGo outcomes attempt left = .fatal invalidApiKeyMsg (attempt + 1) := by
  conv_lhs => rw [structuredGo]
  simp [h]

/-- A schema failure at attempt index ≥ 2 aborts with the aggregated
schema message. -/
lemma structuredGo_zod_fatal (outcomes : Nat → AttemptOutcome) (attempt left : Nat)
    (issues : List (String × String)) (h : outcomes attempt = .zodError issues)
    (h2 : 2 ≤ attempt) :
    structuredGo outcomes attempt left =
      .fatal ("Schema validation failed after retries: " ++ renderZodIssues issues) (attempt + 1) := by
  conv_lhs => rw [structuredGo]
  simp [h, h2]

/-- A schema failure under the threshold is retried. -/
lemma structuredGo_zod_retry (outcomes : Nat → AttemptOutcome) (attempt left : Nat)
    (issues : List (String × String)) (h : outcomes attempt = .zodError issues)
    (hlt : attempt < 2) :
    structuredGo outcomes attempt (left + 1) = structuredGo outcomes (attempt + 1) left := by
  conv_lhs => rw [structuredGo]
  simp [h, Nat.not_le.mpr hlt]

/-- A schema failure under the threshold on the final allowed attempt
exhausts the loop, re-raising that error. -/
lemma structuredGo_zod_last (outcomes : Nat → AttemptOutcome) (attempt : Nat)
    (issues : List (String × String)) (h : outcomes attempt = .zodError issues)
    (hlt : attempt < 2) :
    structuredGo outcomes attempt 0 = .exhausted (.zodError issues) (attempt + 1) := by
  conv_lhs => rw [structuredGo]
  simp [h, Nat.not_le.mpr hlt]

/-- Any other error is retried. -/
lemma structuredGo_other_retry (outcomes : Nat → AttemptOutcome) (attempt left : Nat)
    (m : String) (h : outcomes attempt = .otherError m) :
    structuredGo outcomes attempt (left + 1) = structuredGo outcomes (attempt + 1) left := by
  conv_lhs => rw [structuredGo]
  simp [h]

/-- Any other error on the final allowed attempt exhausts the loop. -/
lemma structuredGo_other_last (outcomes : Nat → AttemptOutcome) (attempt : Nat)
    (m : String) (h : outcomes attempt = .otherError m) :
    structuredGo outcomes attempt 0 = .exhausted (.otherError m) (attempt + 1) := by
  conv_lhs => rw [structuredGo]
  simp [h]

/-- The retry loop makes at most `attempt + left + 1` attempts in total
when entered at attempt index `attempt` with `left` loop iterations
still allowed after the current one. -/
lemma structuredGo_attempts_le (outcomes : Nat → AttemptOutcome) :
    ∀ left attempt, (structuredGo outcomes attempt left).attemptsMade ≤ attempt + left + 1 := by
  intro left
  induction left with
  | zero =>
      intro attempt
      cases h : outcomes attempt with
      | success u => simp [structuredGo_success outcomes attempt 0 u h, StructuredResult.attemptsMade]
      | auth401 => simp [structuredGo_auth outcomes attempt 0 h, StructuredResult.attemptsMade]
      | zodError issues =>
          rcases Nat.lt_or_ge attempt 2 with hlt | hge
          · simp [structuredGo_zod_last outcomes attempt issues h hlt, StructuredResult.attemptsMade]
          · simp [structuredGo_zod_fatal outcomes attempt 0 issues h hge, StructuredResult.attemptsMade]
      | otherError m => simp [structuredGo_other_last outcomes attempt m h, StructuredResult.attemptsMade]
  | succ left ih =>
      intro attempt
      cases h : outcomes attempt with
      | success u =>
          simp [structuredGo_success outcomes attempt (left + 1) u h, StructuredResult.attemptsMade]
      | auth401 =>
          simp [structuredGo_auth outcomes attempt (left + 1) h, StructuredResult.attemptsMade]
      | zodError issues =>
          rcases Nat.lt_or_ge attempt 2 with hlt | hge
          · rw [structuredGo_zod_retry outcomes attempt left issues h hlt]
            have := ih (attempt + 1)
            omega
          · simp [structuredGo_zod_fatal outcomes attempt (left + 1) issues h hge,
              StructuredResult.attemptsMade]
      | otherError m =>
          rw [structuredGo_other_retry outcomes attempt left m h]
          have := ih (attempt + 1)
          omega

/-- When every attempt up to the end of the loop hits a retryable error,
the loop exhausts and re-raises the error observed on the last attempt. -/
lemma structuredGo_exhausts (outcomes : Nat → AttemptOutcome) :
    ∀ left attempt, (∀ j, attempt ≤ j → j ≤ attempt + left → retryableAt outcomes j) →
      structuredGo outcomes attempt left =
        .exhausted (outcomes (attempt + left)) (attempt + left + 1) := by
  intro left
  induction left with
  | zero =>
      intro attempt hall
      rcases hall attempt le_rfl (by omega) with ⟨m, hm⟩ | ⟨issues, hiss, hlt⟩
      · rw [structuredGo_other_last outcomes attempt m hm, ← hm]
        simp
      · rw [structuredGo_zod_last outcomes attempt issues hiss hlt, ← hiss]
        simp
  | succ left ih =>
      intro attempt hall
      have hstep : structuredGo outcomes (attempt + 1) left =
          .exhausted (outcomes (attempt + 1 + left)) (attempt + 1 + left + 1) :=
        ih (attempt + 1) (fun j h1 h2 => hall j (by omega) (by omega))
      have harith : attempt + 1 + left = attempt + (left + 1) := by omega
      rw [harith] at hstep
      rcases hall attempt le_rfl (by omega) with ⟨m, hm⟩ | ⟨issues, hiss, hlt⟩
      · rw [structuredGo_other_retry outcomes attempt left m hm, hstep]
      · rw [structuredGo_zod_retry outcomes attempt left issues hiss hlt, hstep]

/-- C3: in live mode `structured` makes at most `maxRetries + 1`
attempts; a 401 aborts at once with the invalid-API-key message and is
never retried; a schema-validation failure at attempt index ≥ 2 aborts
with the aggregated `Schema validation failed after retries:` message
enumerating every `<field>: <message>` pair; any other error — and a
schema failure under the threshold — is retried; and when every attempt
fails retryably, the last observed error is re-raised. -/
theorem structured_retry_classification :
    (∀ (outcomes : Nat → AttemptOutcome) (maxRetries : Nat),
      (structuredRun maxRetries outcomes).attemptsMade ≤ maxRetries + 1) ∧
    (∀ (outcomes : Nat → AttemptOutcome) (attempt left : Nat),
      outcomes attempt = .auth401 →
      structuredGo outcomes attempt left = .fatal invalidApiKeyMsg (attempt + 1)) ∧
    (∀ (outcomes : Nat → AttemptOutcome) (attempt left : Nat) (issues : List (String × String)),
      outcomes attempt = .zodError issues → 2 ≤ attempt →
      structuredGo outcomes attempt left =
        .fatal ("Schema validation failed after retries: " ++ renderZodIssues issues) (attempt + 1)) ∧
    (∀ (outcomes : Nat → AttemptOutcome) (attempt left : Nat) (m : String),
      outcomes attempt = .otherError m →
      structuredGo outcomes attempt (left + 1) = structuredGo outcomes (attempt + 1) left) ∧
    (∀ (outcomes : Nat → AttemptOutcome) (attempt left : Nat) (issues : List (String × String)),
      outcomes attempt = .zodError issues → attempt < 2 →
      structuredGo outcomes attempt (left + 1) = structuredGo outcomes (attempt + 1) left) ∧
    (∀ (outcomes : Nat → AttemptOutcome) (maxRetries : Nat),
      (∀ j, j ≤ maxRetries → retryableAt outcomes j) →
      structuredRun maxRetries outcomes = .exhausted (outcomes maxRetries) (maxRetries + 1)) := by
  refine ⟨?_, ?_, ?_, ?_, ?_, ?_⟩
  · intro outcomes maxRetries
    have := structuredGo_attempts_le outcomes maxRetries 0
    simpa [structuredRun] using this
  · intro outcomes attempt left h
    exact structuredGo_auth outcomes attempt left h
  · intro outcomes attempt left issues h h2
    exact structuredGo_zod_fatal outcomes attempt left issues h h2
  · intro outcomes attempt left m h
    exact structuredGo_other_retry outcomes attempt left m h
  · intro outcomes attempt left issues h hlt
    exact structuredGo_zod_retry outcomes attempt left issues h hlt
  · intro outcomes maxRetries hall
    have := structuredGo_exhausts outcomes maxRetries 0 (fun j h1 h2 => hall j (by omega))
    simpa [structuredRun] using this

/-- C3 witness: concrete evaluations of the classification — an
immediate 401 abort after one attempt; the schema-error abort at attempt
index 2 with the aggregated message; and exhaustion re-raising the last
network error after `maxRetries + 1 = 2` attempts. -/
theorem structured_retry_classification_witness :
    structuredRun 3 (fun _ => .auth401) = .fatal invalidApiKeyMsg 1 ∧
    structuredGo (fun _ => .zodError [(("foo"), ("Required"))]) 2 1 =
      .fatal ("Schema validation failed after retries: foo: Required") 3 ∧
    structuredRun 1 (fun _ => .otherError ("network down")) =
      StructuredResult.exhausted (.otherError ("network down")) 2 := by
  refine ⟨?_, ?_, ?_⟩
  · exact structured_retry_classification.2.1 (fun _ => .auth401) 0 3 rfl
  · have := structured_retry_classification.2.2.1 (fun _ => .zodError [(("foo"), ("Required"))])
      2 1 [(("foo"), ("Required"))] rfl (by omega)
    simpa using this
  · have := structured_retry_classification.2.2.2.2.2 (fun _ => .otherError ("network down")) 1
      (fun j hj => Or.inl ⟨("network down"), rfl⟩)
    simpa using this

/-- `closeLast` preserves the states of the history entries. -/
lemma closeLast_map_state (now : Nat) (hist : List HistoryEntry) :
    (closeLast now hist).map HistoryEntry.state = hist.map HistoryEntry.state := by
  induction hist with
  | nil => rfl
  | cons e rest ih =>
      cases rest with
      | nil =>
          unfold closeLast
          split <;> rfl
      | cons f rest' =>
          unfold closeLast
          simpa using ih

/-- `closeLast` preserves history length. -/
lemma closeLast_length (now : Nat) (hist : List HistoryEntry) :
    (closeLast now hist).length = hist.length := by
  have := closeLast_map_state now hist
  calc (closeLast now hist).length
      = ((closeLast now hist).map HistoryEntry.state).length := by simp
    _ = (hist.map HistoryEntry.state).length := by rw [this]
    _ = hist.length := by simp

/-- `closeLast` on a history with last entry `e` rewrites only `e`. -/
lemma closeLast_concat (now : Nat) (hs : List HistoryEntry) (e : HistoryEntry) :
    closeLast now (hs ++ [e]) =
      hs ++ [if e.durationMs = none ∨ e.durationMs = some 0 then
               { e with durationMs := some (now - e.timestamp) } else e] := by
  induction hs with
  | nil =>
      by_cases hc : e.durationMs = none ∨ e.durationMs = some 0 <;> simp [closeLast, hc]
  | cons f hs ih =>
      cases hs with
      | nil =>
          by_cases hc : e.durationMs = none ∨ e.durationMs = some 0 <;> simp [closeLast, hc]
      | cons g hs' =>
          have h3 : closeLast now (f :: (g :: (hs' ++ [e]))) =
              f :: closeLast now (g :: (hs' ++ [e])) := rfl
          simp only [List.cons_append] at ih ⊢
          rw [h3, ih]

/-- The GENERATE_OUTPUTS handler always proceeds to VALIDATE. -/
lemma handleGenerateOutputs_next (env : LLMEnv) (ctx : PipelineContext) :
    (handleGenerateOutputs env ctx).2 = Except.ok .VALIDATE := by
  unfold handleGenerateOutputs
  cases hv : ctx.validation with
  | none => simp [shouldGenerate, hv, addTokenUsage]
  | some v =>
      cases hcl : v.coverLetterValid <;> cases hb : v.bulletsValid <;>
        cases hip : v.interviewPrepValid <;>
        simp [shouldGenerate, hv, hcl, hb, hip, addTokenUsage]

/-- The GENERATE_OUTPUTS handler leaves the state history alone. -/
lemma handleGenerateOutputs_history (env : LLMEnv) (ctx : PipelineContext) :
    (handleGenerateOutputs env ctx).1.stateHistory = ctx.stateHistory := by
  unfold handleGenerateOutputs
  cases hv : ctx.validation with
  | none => simp [shouldGenerate, hv, addTokenUsage]
  | some v =>
      cases hcl : v.coverLetterValid <;> cases hb : v.bulletsValid <;>
        cases hip : v.interviewPrepValid <;>
        simp [shouldGenerate, hv, hcl, hb, hip, addTokenUsage]

/-- The VALIDATE handler leaves the state history alone and, when it
returns a state, that state is DONE or GENERATE_OUTPUTS. -/
lemma handleValidate_cases (ctx : PipelineContext) :
    (handleValidate ctx).1.stateHistory = ctx.stateHistory ∧
    (∀ s', (handleValidate ctx).2 = .ok s' → s' = .DONE ∨ s' = .GENERATE_OUTPUTS) := by
  cases hjd : ctx.parsedJD with
  | none => simp [handleValidate, hjd]
  | some jd =>
      constructor
      · by_cases hp : (validateOutputs ctx.outputs jd).passed <;>
          by_cases ha : ctx.validationAttempts < MAX_VALIDATION_ATTEMPTS <;>
          simp [handleValidate, hjd, hp, ha]
      · intro s' h
        by_cases hp : (validateOutputs ctx.outputs jd).passed <;>
          by_cases ha : ctx.validationAttempts < MAX_VALIDATION_ATTEMPTS <;>
          simp [handleValidate, hjd, hp, ha] at h <;> simp [← h]

/-- With a parsed JD in the context, the VALIDATE handler stores the
validation result and branches on `passed` and the attempt counter. -/
lemma handleValidate_result (ctx : PipelineContext) (jd : ParsedJD)
    (hjd : ctx.parsedJD = some jd) :
    (handleValidate ctx).1 = { ctx with validation := some (validateOutputs ctx.outputs jd) } ∧
    (handleValidate ctx).2 = Except.ok
      (if (validateOutputs ctx.outputs jd).passed then .DONE
       else if ctx.validationAttempts < MAX_VALIDATION_ATTEMPTS then .GENERATE_OUTPUTS
       else .DONE) := by
  constructor <;>
    by_cases hp : (validateOutputs ctx.outputs jd).passed <;>
      by_cases ha : ctx.validationAttempts < MAX_VALIDATION_ATTEMPTS <;>
      simp [handleValidate, hjd, hp, ha]

/-- The GENERATE_OUTPUTS handler increments the attempt counter by one. -/
lemma handleGenerateOutputs_attempts (env : LLMEnv) (ctx : PipelineContext) :
    (handleGenerateOutputs env ctx).1.validationAttempts = ctx.validationAttempts + 1 := by
  unfold handleGenerateOutputs
  cases hv : ctx.validation with
  | none => simp [shouldGenerate, hv, addTokenUsage]
  | some v =>
      cases hcl : v.coverLetterValid <;> cases hb : v.bulletsValid <;>
        cases hip : v.interviewPrepValid <;>
        simp [shouldGenerate, hv, hcl, hb, hip, addTokenUsage]

/-- The GENERATE_OUTPUTS handler leaves the parsed JD alone. -/
lemma handleGenerateOutputs_parsedJD (env : LLMEnv) (ctx : PipelineContext) :
    (handleGenerateOutputs env ctx).1.parsedJD = ctx.parsedJD := by
  unfold handleGenerateOutputs
  cases hv : ctx.validation with
  | none => simp [shouldGenerate, hv, addTokenUsage]
  | some v =>
      cases hcl : v.coverLetterValid <;> cases hb : v.bulletsValid <;>
        cases hip : v.interviewPrepValid <;>
        simp [shouldGenerate, hv, hcl, hb, hip, addTokenUsage]

/-- Under a prior validation result, the GENERATE_OUTPUTS handler merges
outputs artifact-wise: valid artifacts kept, invalid ones regenerated. -/
lemma handleGenerateOutputs_outputs (env : LLMEnv) (ctx : PipelineContext)
    (v : ValidationResult) (hv : ctx.validation = some v) :
    (handleGenerateOutputs env ctx).1.outputs =
      { coverLetter :=
          if v.coverLetterValid then ctx.outputs.coverLetter
          else some (env.gens (ctx.validationAttempts + 1)).1
      , tailoredBullets :=
          if v.bulletsValid then ctx.outputs.tailoredBullets
          else some (env.gens (ctx.validationAttempts + 1)).2.1
      , interviewPrep :=
          if v.interviewPrepValid then ctx.outputs.interviewPrep
          else some (env.gens (ctx.validationAttempts + 1)).2.2 } := by
  unfold handleGenerateOutputs
  cases hcl : v.coverLetterValid <;> cases hb : v.bulletsValid <;>
    cases hip : v.interviewPrepValid <;>
    simp [shouldGenerate, hv, hcl, hb, hip, addTokenUsage]

/-- No handler of the agent graph touches the state history. -/
lemma createAgentGraph_preservesHistory (env : LLMEnv) :
    preservesHistory (createAgentGraph env) := by
  intro s h hn ctx
  cases s <;> simp [createAgentGraph] at hn <;> subst hn
  · simp [handleParseJD, addTokenUsage]
  · simp [handleParseResume, addTokenUsage]
  · simp [handleAnalyzeFit, addTokenUsage]
  · exact handleGenerateOutputs_history env ctx
  · exact (handleValidate_cases ctx).1

/-- No handler of the agent graph directs the run to INTAKE. -/
lemma createAgentGraph_neverReturnsIntake (env : LLMEnv) :
    neverReturnsIntake (createAgentGraph env) := by
  intro s h hn ctx s' hs'
  cases s <;> simp [createAgentGraph] at hn <;> subst hn
  · simp [handleParseJD, addTokenUsage] at hs'
    simp [← hs']
  · simp [handleParseResume, addTokenUsage] at hs'
    simp [← hs']
  · simp [handleAnalyzeFit, addTokenUsage] at hs'
    simp [← hs']
  · rw [handleGenerateOutputs_next env ctx] at hs'
    simp at hs'
    simp [← hs']
  · rcases (handleValidate_cases ctx).2 s' hs' with h | h <;> simp [h]

/-- C8 counterexample: at a context in terminal state DONE — which has
no declared successors — requesting the (illegal) transition to PARSE_JD,
the current `transitionTo` neither fails nor leaves the context
unchanged: it returns normally with the history grown by one entry and
`currentState` moved to PARSE_JD. -/
theorem transition_check_counterexample :
    STATE_TRANSITIONS .DONE = [] ∧
    AgentState.PARSE_JD ≠ AgentState.ERROR ∧
    (transitionTo 5 ctxAtDone .PARSE_JD).currentState = .PARSE_JD ∧
    (transitionTo 5 ctxAtDone .PARSE_JD).stateHistory.length = 2 ∧
    ctxAtDone.stateHistory.length = 1 := by
  refine ⟨rfl, by decide, by decide, by decide, by decide⟩

/-- C8 (amended): the current `transitionTo` never rejects a requested
transition.  For every context and every target state — whether or not
the target is a declared successor of the current state or ERROR — it
returns normally, appends exactly one history entry for the target, and
sets `currentState` to the target; legality of moves is not enforced at
transition time (the handler's return value is authoritative). -/
theorem transition_unchecked_total (now : Nat) (ctx : PipelineContext) (next : AgentState) :
    (transitionTo now ctx next).currentState = next ∧
    (transitionTo now ctx next).stateHistory.map HistoryEntry.state =
      ctx.stateHistory.map HistoryEntry.state ++ [next] ∧
    (transitionTo now ctx next).stateHistory.length = ctx.stateHistory.length + 1 := by
  refine ⟨rfl, ?_, ?_⟩
  · simp [transitionTo, closeLast_map_state]
  · simp [transitionTo, closeLast_length]

/-- C5 counterexample: DONE is a start state for which no handler is
registered, yet `runGraph` started there does not reject — it returns
normally, records a new history entry (a mutation) and invokes the
progress callback once, with DONE. -/
theorem missing_handler_counterexample :
    emptyGraph.nodes .DONE = none ∧
    (runGraphAux emptyGraph clock0 3 1 ctx0 .DONE []).isOk = true ∧
    (runGraphAux emptyGraph clock0 3 1 ctx0 .DONE []).finalCtx.stateHistory.length = 2 ∧
    (runGraphAux emptyGraph clock0 3 1 ctx0 .DONE []).notified = [.DONE] := by
  refine ⟨rfl, by decide, by decide, by decide⟩

/-- C5 (amended): for every graph and every *non-terminal* start state
with no registered handler, the runner rejects with
`No handler registered for state: <STATE>` and performs no mutation: the
context is returned exactly as it was and the progress callback is never
invoked. -/
theorem missing_handler_fails_fast (g : AgentGraph) (clock : Nat → Nat) (fuel step : Nat)
    (ctx : PipelineContext) (s : AgentState) (notified : List AgentState)
    (hterm : g.terminalStates.contains s = false) (hnode : g.nodes s = none) :
    runGraphAux g clock fuel step ctx s notified =
      .fatal ("No handler registered for state: " ++ stateName s) ctx notified := by
  unfold runGraphAux
  rw [hterm, hnode]
  simp

/-- C5 witness: the fail-fast raise at the concrete non-terminal start
state PARSE_JD of a handler-less graph, leaving the fresh context and
the empty callback log untouched. -/
theorem missing_handler_fails_fast_witness :
    runGraphAux emptyGraph clock0 3 1 ctx0 .PARSE_JD [] =
      .fatal ("No handler registered for state: PARSE_JD") ctx0 [] := by
  have h := missing_handler_fails_fast emptyGraph clock0 3 1 ctx0 .PARSE_JD [] (by decide) rfl
  simpa [stateName] using h

/-- C4: when the handler of a non-terminal state `s` throws with message
`m`, where ERROR is terminal, the runner catches the exception exactly
once: the run returns normally (nothing propagates), exactly one entry
`"<STATE>: <message>"` is appended to the handler's resulting error
list, the run ends in ERROR, and the callback fires for `s` and then
ERROR. -/
theorem handler_exception_caught_once (g : AgentGraph) (clock : Nat → Nat) (fuel step : Nat)
    (ctx : PipelineContext) (s : AgentState) (notified : List AgentState)
    (h : NodeHandler) (ctx2 : PipelineContext) (m : String)
    (hterm : g.terminalStates.contains s = false)
    (hErrTerm : g.terminalStates.contains .ERROR = true)
    (hnode : g.nodes s = some h)
    (hrun : h (transitionTo (clock step) ctx s) = (ctx2, .error m)) :
    (runGraphAux g clock (fuel + 1) step ctx s notified).isOk = true ∧
    (runGraphAux g clock (fuel + 1) step ctx s notified).finalCtx.errors =
      ctx2.errors ++ [stateName s ++ (": ") ++ m] ∧
    (runGraphAux g clock (fuel + 1) step ctx s notified).finalCtx.currentState = .ERROR ∧
    (runGraphAux g clock (fuel + 1) step ctx s notified).notified = notified ++ [s, .ERROR] := by
  have hstep : runGraphAux g clock (fuel + 1) step ctx s notified =
      .ok (transitionTo (clock (step + 1))
            { ctx2 with errors := ctx2.errors ++ [stateName s ++ (": ") ++ m] } .ERROR)
        (notified ++ [s] ++ [.ERROR]) := by
    conv_lhs => rw [runGraphAux]
    rw [hterm, hnode]
    simp only [hrun]
    conv_lhs => rw [runGraphAux]
    rw [hErrTerm]
    simp
  rw [hstep]
  exact ⟨rfl, rfl, rfl, by simp [RunResult.notified]⟩

/-- C4 witness: a graph whose PARSE_JD handler throws `boom`; the run
returns normally, ends in ERROR, and records exactly `PARSE_JD: boom`. -/
theorem handler_exception_caught_once_witness :
    (runGraphAux boomGraph clock0 3 1 ctx0 .PARSE_JD []).isOk = true ∧
    (runGraphAux boomGraph clock0 3 1 ctx0 .PARSE_JD []).finalCtx.errors = [("PARSE_JD: boom")] ∧
    (runGraphAux boomGraph clock0 3 1 ctx0 .PARSE_JD []).finalCtx.currentState = .ERROR ∧
    (runGraphAux boomGraph clock0 3 1 ctx0 .PARSE_JD []).notified = [.PARSE_JD, .ERROR] := by
  have h := handler_exception_caught_once boomGraph clock0 2 1 ctx0 .PARSE_JD []
    (fun ctx => (ctx, .error ("boom"))) (transitionTo (clock0 1) ctx0 .PARSE_JD) ("boom")
    (by decide) (by decide) rfl rfl
  obtain ⟨h1, h2, h3, h4⟩ := h
  exact ⟨h1, by rw [h2]; decide, h3, by rw [h4]; decide⟩

/-- C2: on every invocation of the GENERATE_OUTPUTS handler a generation
sub-task runs for an artifact only if there is no prior validation
result or it marked that artifact invalid: with no prior result all
three artifacts are (re)generated from the attempt's generator results,
and under a prior result each artifact marked valid keeps its output
field unchanged while each artifact marked invalid is regenerated.  The
handler always proceeds to VALIDATE. -/
theorem generate_outputs_partial_regen (env : LLMEnv) (ctx : PipelineContext) :
    ((handleGenerateOutputs env ctx).2 = Except.ok .VALIDATE) ∧
    ((handleGenerateOutputs env ctx).1.validationAttempts = ctx.validationAttempts + 1) ∧
    (ctx.validation = none →
      (handleGenerateOutputs env ctx).1.outputs =
        { coverLetter := some (env.gens (ctx.validationAttempts + 1)).1
        , tailoredBullets := some (env.gens (ctx.validationAttempts + 1)).2.1
        , interviewPrep := some (env.gens (ctx.validationAttempts + 1)).2.2 }) ∧
    (∀ v, ctx.validation = some v →
      (v.coverLetterValid = true →
        (handleGenerateOutputs env ctx).1.outputs.coverLetter = ctx.outputs.coverLetter) ∧
      (v.coverLetterValid = false →
        (handleGenerateOutputs env ctx).1.outputs.coverLetter =
          some (env.gens (ctx.validationAttempts + 1)).1) ∧
      (v.bulletsValid = true →
        (handleGenerateOutputs env ctx).1.outputs.tailoredBullets = ctx.outputs.tailoredBullets) ∧
      (v.bulletsValid = false →
        (handleGenerateOutputs env ctx).1.outputs.tailoredBullets =
          some (env.gens (ctx.validationAttempts + 1)).2.1) ∧
      (v.interviewPrepValid = true →
        (handleGenerateOutputs env ctx).1.outputs.interviewPrep = ctx.outputs.interviewPrep) ∧
      (v.interviewPrepValid = false →
        (handleGenerateOutputs env ctx).1.outputs.interviewPrep =
          some (env.gens (ctx.validationAttempts + 1)).2.2)) := by
  refine ⟨?_, ?_, ?_, ?_⟩
  · unfold handleGenerateOutputs
    cases hv : ctx.validation with
    | none => simp [shouldGenerate, hv, addTokenUsage]
    | some v =>
        cases hcl : v.coverLetterValid <;> cases hb : v.bulletsValid <;>
          cases hip : v.interviewPrepValid <;>
          simp [shouldGenerate, hv, hcl, hb, hip, addTokenUsage]
  · unfold handleGenerateOutputs
    cases hv : ctx.validation with
    | none => simp [shouldGenerate, hv, addTokenUsage]
    | some v =>
        cases hcl : v.coverLetterValid <;> cases hb : v.bulletsValid <;>
          cases hip : v.interviewPrepValid <;>
          simp [shouldGenerate, hv, hcl, hb, hip, addTokenUsage]
  · intro hv
    unfold handleGenerateOutputs
    simp [shouldGenerate, hv, addTokenUsage]
  · intro v hv
    unfold handleGenerateOutputs
    cases hcl : v.coverLetterValid <;> cases hb : v.bulletsValid <;>
      cases hip : v.interviewPrepValid <;>
      simp [shouldGenerate, hv, hcl, hb, hip, addTokenUsage]

/-- C2 witness: at a context whose prior validation marked the cover
letter and interview prep valid and the bullets invalid, the handler
keeps the cover letter and interview prep and regenerates the bullets. -/
theorem generate_outputs_partial_regen_witness :
    (handleGenerateOutputs env0 ctxPartial).1.outputs.coverLetter = some ("oldCL") ∧
    (handleGenerateOutputs env0 ctxPartial).1.outputs.tailoredBullets =
      some (env0.gens 2).2.1 ∧
    (handleGenerateOutputs env0 ctxPartial).1.outputs.interviewPrep = some ("oldIP") ∧
    (handleGenerateOutputs env0 ctxPartial).2 = Except.ok .VALIDATE := by
  have h := generate_outputs_partial_regen env0 ctxPartial
  obtain ⟨hnext, hatt, hnone, hsome⟩ := h
  obtain ⟨hcl, hclF, hb, hbF, hip, hipF⟩ := hsome
    { passed := false
    , coverLetterValid := true
    , bulletsValid := false
    , interviewPrepValid := true
    , issues := [("Too few resume bullets: 0 (min 4)")] } rfl
  refine ⟨?_, ?_, ?_, hnext⟩
  · rw [hcl rfl]; rfl
  · rw [hbF rfl]; rfl
  · rw [hip rfl]; rfl

/-- The cover-letter block computes the all-clear flag and the filtered
issue messages of its check list. -/
lemma coverLetterCheck_eq_checks (outputs : GeneratedOutputs) (jd : ParsedJD) :
    coverLetterCheck outputs jd =
      ( (coverLetterChecks outputs jd).all (fun p => !p.1)
      , ((coverLetterChecks outputs jd).filter Prod.fst).map Prod.snd ) := by
  unfold coverLetterCheck coverLetterChecks
  cases outputs.coverLetter with
  | none => simp
  | some cl =>
      simp only []
      generalize decide (wordCount cl > MAX_COVER_LETTER_WORDS) = a
      generalize decide (wordCount cl < MIN_COVER_LETTER_WORDS) = b
      generalize (!(jsIncludes (jsToLower cl) (firstSpaceToken (jsToLower jd.company)))) = c
      generalize (!(jd.requiredSkills.any fun s => jsIncludes (jsToLower cl) (jsToLower s.name))) = d
      cases a <;> cases b <;> cases c <;> cases d <;> simp

/-- The bullets block computes the all-clear flag and the filtered issue
messages of its check list. -/
lemma bulletsCheck_eq_checks (outputs : GeneratedOutputs) (jd : ParsedJD) :
    bulletsCheck outputs jd =
      ( (bulletsChecks outputs jd).all (fun p => !p.1)
      , ((bulletsChecks outputs jd).filter Prod.fst).map Prod.snd ) := by
  unfold bulletsCheck bulletsChecks
  cases outputs.tailoredBullets with
  | none => simp
  | some tb =>
      simp only []
      generalize decide (bulletCount tb < MIN_BULLETS) = a
      generalize decide
        (((jd.techStack.map jsToLower).filter fun k => jsIncludes (jsToLower tb) k).length < 2) = b
      cases a <;> cases b <;> simp

/-- The interview-prep block computes the all-clear flag and the
filtered issue messages of its check list. -/
lemma interviewPrepCheck_eq_checks (outputs : GeneratedOutputs) (jd : ParsedJD) :
    interviewPrepCheck outputs jd =
      ( (interviewPrepChecks outputs jd).all (fun p => !p.1)
      , ((interviewPrepChecks outputs jd).filter Prod.fst).map Prod.snd ) := by
  unfold interviewPrepCheck interviewPrepChecks
  cases outputs.interviewPrep with
  | none => simp
  | some ip =>
      simp only []
      generalize (!(jsIncludes ip ("Technical Questions") && jsIncludes ip ("Behavioral Questions") &&
        jsIncludes ip ("Questions to Ask"))) = a
      generalize (!(jsIncludes (jsToLower ip) (firstSpaceToken (jsToLower jd.company)))) = b
      cases a <;> cases b <;> simp

/-- C7: `validateOutputs` returns `passed` equal to the conjunction of
the three per-artifact flags; each flag is the all-clear over that
artifact's predicate list, and the shared issues list is exactly one
message per violated predicate, in evaluation order across the three
artifacts — evaluation does not stop at the first violation. -/
theorem validator_issue_accounting (outputs : GeneratedOutputs) (jd : ParsedJD) :
    (validateOutputs outputs jd).passed =
      ((validateOutputs outputs jd).coverLetterValid &&
        (validateOutputs outputs jd).bulletsValid &&
        (validateOutputs outputs jd).interviewPrepValid) ∧
    (validateOutputs outputs jd).issues =
      (((coverLetterChecks outputs jd ++ bulletsChecks outputs jd ++
          interviewPrepChecks outputs jd).filter Prod.fst).map Prod.snd) ∧
    (validateOutputs outputs jd).coverLetterValid =
      ((coverLetterChecks outputs jd).all fun p => !p.1) ∧
    (validateOutputs outputs jd).bulletsValid =
      ((bulletsChecks outputs jd).all fun p => !p.1) ∧
    (validateOutputs outputs jd).interviewPrepValid =
      ((interviewPrepChecks outputs jd).all fun p => !p.1) := by
  refine ⟨rfl, ?_, ?_, ?_, ?_⟩
  · show (coverLetterCheck outputs jd).2 ++ (bulletsCheck outputs jd).2 ++
        (interviewPrepCheck outputs jd).2 = _
    rw [coverLetterCheck_eq_checks, bulletsCheck_eq_checks, interviewPrepCheck_eq_checks]
    simp [List.filter_append]
  · show (coverLetterCheck outputs jd).1 = _
    rw [coverLetterCheck_eq_checks]
  · show (bulletsCheck outputs jd).1 = _
    rw [bulletsCheck_eq_checks]
  · show (interviewPrepCheck outputs jd).1 = _
    rw [interviewPrepCheck_eq_checks]

/-- When every entry but the last carries a duration, `closeLast` closes
the last as well, so every entry of the result carries one. -/
lemma closeLast_all_some (now : Nat) (hist : List HistoryEntry)
    (h : allButLastClosed hist = true) :
    ((closeLast now hist).all fun e => e.durationMs.isSome) = true := by
  induction hist with
  | nil => rfl
  | cons e rest ih =>
      cases rest with
      | nil =>
          cases hd : e.durationMs with
          | none => simp [closeLast, hd]
          | some d =>
              simp only [closeLast, hd]
              split <;> simp [hd]
      | cons f rest' =>
          have hrec : closeLast now (e :: f :: rest') = e :: closeLast now (f :: rest') := rfl
          rw [hrec]
          simp only [allButLastClosed, List.dropLast_cons₂, List.all_cons,
            Bool.and_eq_true] at h
          simp only [List.all_cons, Bool.and_eq_true]
          exact ⟨h.1, ih (by simpa [allButLastClosed] using h.2)⟩

/-- A transition keeps the invariant that all history entries except the
(new) last one carry a duration. -/
lemma transitionTo_closed (now : Nat) (ctx : PipelineContext) (next : AgentState)
    (h : allButLastClosed ctx.stateHistory = true) :
    allButLastClosed (transitionTo now ctx next).stateHistory = true := by
  simp only [transitionTo, allButLastClosed, List.dropLast_concat]
  exact closeLast_all_some now ctx.stateHistory h

/-- Along any run of a graph whose handlers leave the history alone, the
all-but-last-closed invariant is preserved into the final context,
whatever the outcome. -/
lemma runGraphAux_closed (g : AgentGraph) (clock : Nat → Nat) (hpres : preservesHistory g) :
    ∀ fuel step ctx s notified, allButLastClosed ctx.stateHistory = true →
      allButLastClosed (runGraphAux g clock fuel step ctx s notified).finalCtx.stateHistory = true := by
  intro fuel
  induction fuel with
  | zero =>
      intro step ctx s notified hctx
      unfold runGraphAux
      split
      · exact transitionTo_closed (clock step) ctx s hctx
      · split
        · exact hctx
        · exact hctx
  | succ fuel ih =>
      intro step ctx s notified hctx
      unfold runGraphAux
      split
      · exact transitionTo_closed (clock step) ctx s hctx
      · split
        · exact hctx
        · next h hn =>
            split
            · exact hctx
            · next fv fuel' heq =>
                have hf : fuel' = fuel := by omega
                subst hf
                split
                next ctx2 s' hh =>
                  refine ih (step + 1) ctx2 s' (notified ++ [s]) ?_
                  have hp := hpres s h hn (transitionTo (clock step) ctx s)
                  rw [hh] at hp
                  simp only [] at hp
                  rw [show ctx2.stateHistory = (transitionTo (clock step) ctx s).stateHistory from hp]
                  exact transitionTo_closed (clock step) ctx s hctx
                next ctx2 m hh =>
                  refine ih (step + 1) _ .ERROR (notified ++ [s]) ?_
                  have hp := hpres s h hn (transitionTo (clock step) ctx s)
                  rw [hh] at hp
                  simp only [] at hp
                  show allButLastClosed ctx2.stateHistory = true
                  rw [show ctx2.stateHistory = (transitionTo (clock step) ctx s).stateHistory from hp]
                  exact transitionTo_closed (clock step) ctx s hctx

/-- C9: the state history is append-only and duration bookkeeping is
lazy and final: a transition appends exactly one (open) entry; the
previous last entry's `durationMs`, when unset, is filled at that moment
with the elapsed time since its own timestamp; an entry already carrying
a non-zero duration is never altered — entries before the last are
untouched in every case; and after any orchestrator run every history
entry except the last carries a duration. -/
theorem history_append_only_durations :
    (∀ (now : Nat) (ctx : PipelineContext) (next : AgentState) (hs : List HistoryEntry)
        (e : HistoryEntry),
      ctx.stateHistory = hs ++ [e] → e.durationMs = none →
      (transitionTo now ctx next).stateHistory =
        hs ++ [{ e with durationMs := some (now - e.timestamp) },
               { state := next, timestamp := now, durationMs := none }]) ∧
    (∀ (now : Nat) (ctx : PipelineContext) (next : AgentState) (hs : List HistoryEntry)
        (e : HistoryEntry) (d : Nat),
      ctx.stateHistory = hs ++ [e] → e.durationMs = some d → d ≠ 0 →
      (transitionTo now ctx next).stateHistory =
        hs ++ [e, { state := next, timestamp := now, durationMs := none }]) ∧
    (∀ (env : LLMEnv) (clock : Nat → Nat) (jdText resumeText : String),
      allButLastClosed ((runOrchestrator env clock jdText resumeText).finalCtx.stateHistory) = true) := by
  refine ⟨?_, ?_, ?_⟩
  · intro now ctx next hs e hhist hd
    simp [transitionTo, hhist, closeLast_concat, hd]
  · intro now ctx next hs e d hhist hd hdz
    simp [transitionTo, hhist, closeLast_concat, hd, hdz]
  · intro env clock jdText resumeText
    exact runGraphAux_closed (createAgentGraph env) clock
      (createAgentGraph_preservesHistory env) ORCHESTRATOR_FUEL 1
      (createPipelineContext (clock 0) jdText resumeText) .PARSE_JD [] rfl

/-- C9 witness: filling the INTAKE entry's duration on the first
transition of a fresh context, and the closed-durations invariant after
a concrete completed run. -/
theorem history_append_only_durations_witness :
    (transitionTo 7 ctx0 .PARSE_JD).stateHistory =
      [{ state := .INTAKE, timestamp := 0, durationMs := some 7 },
       { state := .PARSE_JD, timestamp := 7, durationMs := none }] ∧
    allButLastClosed ((runOrchestrator env0 clock0 ("jd") ("resume")).finalCtx.stateHistory) = true := by
  constructor
  · exact history_append_only_durations.1 7 ctx0 .PARSE_JD []
      { state := .INTAKE, timestamp := 0, durationMs := none } rfl rfl
  · exact history_append_only_durations.2.2 env0 clock0 ("jd") ("resume")

/-- `closeLast` preserves the state of the first history entry. -/
lemma closeLast_head_state (now : Nat) (hist : List HistoryEntry) :
    ((closeLast now hist).head?).map HistoryEntry.state = (hist.head?).map HistoryEntry.state := by
  cases hist with
  | nil => rfl
  | cons e rest =>
      cases rest with
      | nil =>
          unfold closeLast
          split <;> rfl
      | cons f rest' => rfl

/-- `closeLast` maps nil to nil. -/
lemma closeLast_ne_nil (now : Nat) (hist : List HistoryEntry) (h : hist ≠ []) :
    closeLast now hist ≠ [] := by
  intro hcontra
  have := closeLast_length now hist
  rw [hcontra] at this
  simp at this
  exact h (List.length_eq_zero.mp this.symm)

/-- A transition preserves the state of the first history entry when the
history is nonempty. -/
lemma transitionTo_head_state (now : Nat) (ctx : PipelineContext) (next : AgentState)
    (a : AgentState) (h : (ctx.stateHistory.head?).map HistoryEntry.state = some a) :
    ((transitionTo now ctx next).stateHistory.head?).map HistoryEntry.state = some a := by
  have hne : ctx.stateHistory ≠ [] := by
    intro hc
    rw [hc] at h
    simp at h
  rw [transitionTo]
  show ((closeLast now ctx.stateHistory ++ [_]).head?).map HistoryEntry.state = some a
  rw [List.head?_append_of_ne_nil _ (closeLast_ne_nil now ctx.stateHistory hne)]
  rw [closeLast_head_state]
  exact h

/-- Along any run of a graph whose handlers leave the history alone and
whose history starts nonempty, the state of the first history entry is
preserved into the final context. -/
lemma runGraphAux_head_state (g : AgentGraph) (clock : Nat → Nat) (hpres : preservesHistory g) :
    ∀ fuel step ctx s notified a,
      (ctx.stateHistory.head?).map HistoryEntry.state = some a →
      ((runGraphAux g clock fuel step ctx s notified).finalCtx.stateHistory.head?).map
        HistoryEntry.state = some a := by
  intro fuel
  induction fuel with
  | zero =>
      intro step ctx s notified a hctx
      unfold runGraphAux
      split
      · exact transitionTo_head_state (clock step) ctx s a hctx
      · split
        · exact hctx
        · exact hctx
  | succ fuel ih =>
      intro step ctx s notified a hctx
      unfold runGraphAux
      split
      · exact transitionTo_head_state (clock step) ctx s a hctx
      · split
        · exact hctx
        · next h hn =>
            split
            · exact hctx
            · next fv fuel' heq =>
                have hf : fuel' = fuel := by omega
                subst hf
                split
                next ctx2 s' hh =>
                  refine ih (step + 1) ctx2 s' (notified ++ [s]) a ?_
                  have hp := hpres s h hn (transitionTo (clock step) ctx s)
                  rw [hh] at hp
                  simp only [] at hp
                  rw [show ctx2.stateHistory = (transitionTo (clock step) ctx s).stateHistory from hp]
                  exact transitionTo_head_state (clock step) ctx s a hctx
                next ctx2 m hh =>
                  refine ih (step + 1) _ .ERROR (notified ++ [s]) a ?_
                  have hp := hpres s h hn (transitionTo (clock step) ctx s)
                  rw [hh] at hp
                  simp only [] at hp
                  show ((ctx2.stateHistory).head?).map HistoryEntry.state = some a
                  rw [show ctx2.stateHistory = (transitionTo (clock step) ctx s).stateHistory from hp]
                  exact transitionTo_head_state (clock step) ctx s a hctx

/-- Along any run of a graph whose handlers never return INTAKE, started
outside INTAKE with no INTAKE notification so far, the progress callback
is never invoked with INTAKE. -/
lemma runGraphAux_no_intake (g : AgentGraph) (clock : Nat → Nat) (hret : neverReturnsIntake g) :
    ∀ fuel step ctx s notified, s ≠ .INTAKE → AgentState.INTAKE ∉ notified →
      AgentState.INTAKE ∉ (runGraphAux g clock fuel step ctx s notified).notified := by
  intro fuel
  induction fuel with
  | zero =>
      intro step ctx s notified hs hn
      unfold runGraphAux
      split
      · simp [RunResult.notified, hn]
        exact fun hc => hs hc.symm
      · split
        · exact hn
        · exact hn
  | succ fuel ih =>
      intro step ctx s notified hs hn
      unfold runGraphAux
      split
      · simp [RunResult.notified, hn]
        exact fun hc => hs hc.symm
      · split
        · exact hn
        · next h hnode =>
            split
            · exact hn
            · next fv fuel' heq =>
                have hf : fuel' = fuel := by omega
                subst hf
                have hn' : AgentState.INTAKE ∉ notified ++ [s] := by
                  simp [hn]
                  exact fun hc => hs hc.symm
                split
                next ctx2 s' hh =>
                  refine ih (step + 1) ctx2 s' (notified ++ [s]) ?_ hn'
                  have := hret s h hnode (transitionTo (clock step) ctx s) s'
                  rw [hh] at this
                  exact this rfl
                next ctx2 m hh =>
                  exact ih (step + 1) _ .ERROR (notified ++ [s]) (by simp) hn'

/-- C10: the pipeline context is created in INTAKE with INTAKE as the
first (and permanent) head of the state history, but the agent graph
registers no INTAKE handler and the orchestrator starts the run at
PARSE_JD — so the progress callback is never invoked with INTAKE even
though INTAKE heads `stateHistory` in every run. -/
theorem intake_marker_never_notified (env : LLMEnv) (clock : Nat → Nat)
    (jdText resumeText : String) :
    (createAgentGraph env).nodes .INTAKE = none ∧
    (createPipelineContext (clock 0) jdText resumeText).currentState = .INTAKE ∧
    (createPipelineContext (clock 0) jdText resumeText).stateHistory =
      [{ state := .INTAKE, timestamp := clock 0, durationMs := none }] ∧
    ((runOrchestrator env clock jdText resumeText).notified.contains .INTAKE = false) ∧
    ((runOrchestrator env clock jdText resumeText).finalCtx.stateHistory.head?).map
      HistoryEntry.state = some .INTAKE := by
  refine ⟨rfl, rfl, rfl, ?_, ?_⟩
  · have := runGraphAux_no_intake (createAgentGraph env) clock
      (createAgentGraph_neverReturnsIntake env) ORCHESTRATOR_FUEL 1
      (createPipelineContext (clock 0) jdText resumeText) .PARSE_JD []
      (by simp) (by simp)
    simpa [runOrchestrator] using this
  · exact runGraphAux_head_state (createAgentGraph env) clock
      (createAgentGraph_preservesHistory env) ORCHESTRATOR_FUEL 1
      (createPipelineContext (clock 0) jdText resumeText) .PARSE_JD [] .INTAKE rfl

lemma agent_step_terminal (g : AgentGraph) (clock : Nat → Nat) (fuel step : Nat)
    (ctx : PipelineContext) (s : AgentState) (notified : List AgentState)
    (hterm : g.terminalStates.contains s = true) :
    runGraphAux g clock fuel step ctx s notified =
      .ok (transitionTo (clock step) ctx s) (notified ++ [s]) := by
  conv_lhs => rw [runGraphAux]
  rw [if_pos hterm]

lemma agent_step_parse_jd (env : LLMEnv) (clock : Nat → Nat) (fuel step : Nat)
    (ctx : PipelineContext) (notified : List AgentState) :
    runGraphAux (createAgentGraph env) clock (fuel + 1) step ctx .PARSE_JD notified =
      runGraphAux (createAgentGraph env) clock fuel (step + 1)
        (handleParseJD env (transitionTo (clock step) ctx .PARSE_JD)).1
        .PARSE_RESUME (notified ++ [.PARSE_JD]) := by
  conv_lhs => rw [runGraphAux]
  simp [createAgentGraph, handleParseJD, addTokenUsage]

lemma agent_step_parse_resume (env : LLMEnv) (clock : Nat → Nat) (fuel step : Nat)
    (ctx : PipelineContext) (notified : List AgentState) :
    runGraphAux (createAgentGraph env) clock (fuel + 1) step ctx .PARSE_RESUME notified =
      runGraphAux (createAgentGraph env) clock fuel (step + 1)
        (handleParseResume env (transitionTo (clock step) ctx .PARSE_RESUME)).1
        .ANALYZE_FIT (notified ++ [.PARSE_RESUME]) := by
  conv_lhs => rw [runGraphAux]
  simp [createAgentGraph, handleParseResume, addTokenUsage]

lemma agent_step_analyze (env : LLMEnv) (clock : Nat → Nat) (fuel step : Nat)
    (ctx : PipelineContext) (notified : List AgentState) :
    runGraphAux (createAgentGraph env) clock (fuel + 1) step ctx .ANALYZE_FIT notified =
      runGraphAux (createAgentGraph env) clock fuel (step + 1)
        (handleAnalyzeFit env (transitionTo (clock step) ctx .ANALYZE_FIT)).1
        .GENERATE_OUTPUTS (notified ++ [.ANALYZE_FIT]) := by
  conv_lhs => rw [runGraphAux]
  simp [createAgentGraph, handleAnalyzeFit, addTokenUsage]

lemma agent_step_generate (env : LLMEnv) (clock : Nat → Nat) (fuel step : Nat)
    (ctx : PipelineContext) (notified : List AgentState) :
    runGraphAux (createAgentGraph env) clock (fuel + 1) step ctx .GENERATE_OUTPUTS notified =
      runGraphAux (createAgentGraph env) clock fuel (step + 1)
        (handleGenerateOutputs env (transitionTo (clock step) ctx .GENERATE_OUTPUTS)).1
        .VALIDATE (notified ++ [.GENERATE_OUTPUTS]) := by
  conv_lhs => rw [runGraphAux]
  simp [createAgentGraph]
  conv_lhs => rw [show handleGenerateOutputs env (transitionTo (clock step) ctx .GENERATE_OUTPUTS) =
    ((handleGenerateOutputs env (transitionTo (clock step) ctx .GENERATE_OUTPUTS)).1,
     Except.ok .VALIDATE) from Prod.ext rfl (handleGenerateOutputs_next env _)]

lemma agent_step_validate_stuck (env : LLMEnv) (clock : Nat → Nat) (fuel step : Nat)
    (ctx : PipelineContext) (notified : List AgentState) :
    runGraphAux (createAgentGraph env) clock (fuel + 1) step ctx .VALIDATE notified =
      (match handleValidate (transitionTo (clock step) ctx .VALIDATE) with
       | (ctx2, Except.ok s') =>
           runGraphAux (createAgentGraph env) clock fuel (step + 1) ctx2 s'
             (notified ++ [.VALIDATE])
       | (ctx2, Except.error m) =>
           runGraphAux (createAgentGraph env) clock fuel (step + 1)
             { ctx2 with errors := ctx2.errors ++ [stateName .VALIDATE ++ (": ") ++ m] }
             .ERROR (notified ++ [.VALIDATE])) := by
  conv_lhs => rw [runGraphAux]
  simp [createAgentGraph]



lemma scenario_retry_then_done (env : LLMEnv) (clock : Nat → Nat) (jdText resumeText : String)
    (hv1 : (validateOutputs (firstGen env) env.parsedJD).passed = false)
    (hv2 : (validateOutputs (secondGen env) env.parsedJD).passed = true) :
    (runOrchestrator env clock jdText resumeText).isOk = true ∧
    (runOrchestrator env clock jdText resumeText).finalCtx.currentState = .DONE ∧
    (runOrchestrator env clock jdText resumeText).finalCtx.validationAttempts = 2 ∧
    (runOrchestrator env clock jdText resumeText).notified =
      [.PARSE_JD, .PARSE_RESUME, .ANALYZE_FIT, .GENERATE_OUTPUTS, .VALIDATE,
       .GENERATE_OUTPUTS, .VALIDATE, .DONE] ∧
    (runOrchestrator env clock jdText resumeText).finalCtx.stateHistory.map HistoryEntry.state =
      [.INTAKE, .PARSE_JD, .PARSE_RESUME, .ANALYZE_FIT, .GENERATE_OUTPUTS, .VALIDATE,
       .GENERATE_OUTPUTS, .VALIDATE, .DONE] := by
  -- Facts about the context reaching the first VALIDATE (all definitional).
  obtain ⟨h5fst, h5snd⟩ := handleValidate_result
    (transitionTo (clock 5) (scnCtx4 env clock jdText resumeText) .VALIDATE) env.parsedJD rfl
  rw [show (transitionTo (clock 5) (scnCtx4 env clock jdText resumeText) .VALIDATE).outputs =
      firstGen env from rfl] at h5fst h5snd
  rw [hv1] at h5snd
  rw [show (transitionTo (clock 5) (scnCtx4 env clock jdText resumeText) .VALIDATE).validationAttempts =
      1 from rfl] at h5snd
  simp only [Bool.false_eq_true, if_false, MAX_VALIDATION_ATTEMPTS] at h5snd
  rw [if_pos (by omega)] at h5snd
  have hval5 : handleValidate (transitionTo (clock 5) (scnCtx4 env clock jdText resumeText) .VALIDATE) =
      (scnCtx5 env clock jdText resumeText, Except.ok .GENERATE_OUTPUTS) := by
    have hpair : handleValidate (transitionTo (clock 5) (scnCtx4 env clock jdText resumeText) .VALIDATE) =
        ((handleValidate (transitionTo (clock 5) (scnCtx4 env clock jdText resumeText) .VALIDATE)).1,
         (handleValidate (transitionTo (clock 5) (scnCtx4 env clock jdText resumeText) .VALIDATE)).2) := rfl
    rw [hpair, h5snd]
    rfl
  have hscn5 : scnCtx5 env clock jdText resumeText =
      { transitionTo (clock 5) (scnCtx4 env clock jdText resumeText) .VALIDATE with
          validation := some (validateOutputs (firstGen env) env.parsedJD) } := h5fst
  -- Facts about the context reaching the second VALIDATE.
  have hjd6 : (transitionTo (clock 7) (scnCtx6 env clock jdText resumeText) .VALIDATE).parsedJD =
      some env.parsedJD := by
    show (handleGenerateOutputs env
      (transitionTo (clock 6) (scnCtx5 env clock jdText resumeText) .GENERATE_OUTPUTS)).1.parsedJD =
      some env.parsedJD
    rw [handleGenerateOutputs_parsedJD]
    show (scnCtx5 env clock jdText resumeText).parsedJD = some env.parsedJD
    rw [hscn5]
    rfl
  have hatt6 : (transitionTo (clock 7) (scnCtx6 env clock jdText resumeText) .VALIDATE).validationAttempts =
      2 := by
    show (handleGenerateOutputs env
      (transitionTo (clock 6) (scnCtx5 env clock jdText resumeText) .GENERATE_OUTPUTS)).1.validationAttempts = 2
    rw [handleGenerateOutputs_attempts]
    show (scnCtx5 env clock jdText resumeText).validationAttempts + 1 = 2
    rw [hscn5]
    rfl
  have hv6 : (transitionTo (clock 6) (scnCtx5 env clock jdText resumeText) .GENERATE_OUTPUTS).validation =
      some (validateOutputs (firstGen env) env.parsedJD) := by
    show (scnCtx5 env clock jdText resumeText).validation = _
    rw [hscn5]
  have ho6 : (transitionTo (clock 7) (scnCtx6 env clock jdText resumeText) .VALIDATE).outputs =
      secondGen env := by
    show (handleGenerateOutputs env
      (transitionTo (clock 6) (scnCtx5 env clock jdText resumeText) .GENERATE_OUTPUTS)).1.outputs =
      secondGen env
    rw [handleGenerateOutputs_outputs env _ _ hv6]
    have ho5 : (transitionTo (clock 6) (scnCtx5 env clock jdText resumeText) .GENERATE_OUTPUTS).outputs =
        firstGen env := by
      show (scnCtx5 env clock jdText resumeText).outputs = firstGen env
      rw [hscn5]
      rfl
    have ha5 : (transitionTo (clock 6) (scnCtx5 env clock jdText resumeText) .GENERATE_OUTPUTS).validationAttempts =
        1 := by
      show (scnCtx5 env clock jdText resumeText).validationAttempts = 1
      rw [hscn5]
      rfl
    rw [ho5, ha5]
    rfl
  obtain ⟨h7fst, h7snd⟩ := handleValidate_result
    (transitionTo (clock 7) (scnCtx6 env clock jdText resumeText) .VALIDATE) env.parsedJD hjd6
  rw [ho6] at h7fst h7snd
  rw [hv2] at h7snd
  rw [if_pos rfl] at h7snd
  have hval7 : handleValidate (transitionTo (clock 7) (scnCtx6 env clock jdText resumeText) .VALIDATE) =
      (scnCtx7 env clock jdText resumeText, Except.ok .DONE) := by
    have hpair : handleValidate (transitionTo (clock 7) (scnCtx6 env clock jdText resumeText) .VALIDATE) =
        ((handleValidate (transitionTo (clock 7) (scnCtx6 env clock jdText resumeText) .VALIDATE)).1,
         (handleValidate (transitionTo (clock 7) (scnCtx6 env clock jdText resumeText) .VALIDATE)).2) := rfl
    rw [hpair, h7snd]
    rfl
  -- The run, stepwise.
  have hrun : runOrchestrator env clock jdText resumeText =
      .ok (transitionTo (clock 8) (scnCtx7 env clock jdText resumeText) .DONE)
        [.PARSE_JD, .PARSE_RESUME, .ANALYZE_FIT, .GENERATE_OUTPUTS, .VALIDATE,
         .GENERATE_OUTPUTS, .VALIDATE, .DONE] := by
    unfold runOrchestrator ORCHESTRATOR_FUEL
    rw [show (16 : Nat) = 15 + 1 from rfl, agent_step_parse_jd env clock 15 1]
    rw [show (handleParseJD env (transitionTo (clock 1)
        (createPipelineContext (clock 0) jdText resumeText) .PARSE_JD)).1 =
      scnCtx1 env clock jdText resumeText from rfl]
    rw [show (15 : Nat) = 14 + 1 from rfl, agent_step_parse_resume env clock 14 2]
    rw [show (handleParseResume env (transitionTo (clock 2)
        (scnCtx1 env clock jdText resumeText) .PARSE_RESUME)).1 =
      scnCtx2 env clock jdText resumeText from rfl]
    rw [show (14 : Nat) = 13 + 1 from rfl, agent_step_analyze env clock 13 3]
    rw [show (handleAnalyzeFit env (transitionTo (clock 3)
        (scnCtx2 env clock jdText resumeText) .ANALYZE_FIT)).1 =
      scnCtx3 env clock jdText resumeText from rfl]
    rw [show (13 : Nat) = 12 + 1 from rfl, agent_step_generate env clock 12 4]
    rw [show (handleGenerateOutputs env (transitionTo (clock 4)
        (scnCtx3 env clock jdText resumeText) .GENERATE_OUTPUTS)).1 =
      scnCtx4 env clock jdText resumeText from rfl]
    rw [show (12 : Nat) = 11 + 1 from rfl, agent_step_validate_stuck env clock 11 5]
    rw [hval5]
    show runGraphAux (createAgentGraph env) clock 11 6 (scnCtx5 env clock jdText resumeText)
      .GENERATE_OUTPUTS [.PARSE_JD, .PARSE_RESUME, .ANALYZE_FIT, .GENERATE_OUTPUTS, .VALIDATE] =
      .ok (transitionTo (clock 8) (scnCtx7 env clock jdText resumeText) .DONE)
        [.PARSE_JD, .PARSE_RESUME, .ANALYZE_FIT, .GENERATE_OUTPUTS, .VALIDATE,
         .GENERATE_OUTPUTS, .VALIDATE, .DONE]
    rw [show (11 : Nat) = 10 + 1 from rfl, agent_step_generate env clock 10 6]
    rw [show (handleGenerateOutputs env (transitionTo (clock 6)
        (scnCtx5 env clock jdText resumeText) .GENERATE_OUTPUTS)).1 =
      scnCtx6 env clock jdText resumeText from rfl]
    rw [show (10 : Nat) = 9 + 1 from rfl, agent_step_validate_stuck env clock 9 7]
    rw [hval7]
    show runGraphAux (createAgentGraph env) clock 9 8 (scnCtx7 env clock jdText resumeText)
      .DONE [.PARSE_JD, .PARSE_RESUME, .ANALYZE_FIT, .GENERATE_OUTPUTS, .VALIDATE,
             .GENERATE_OUTPUTS, .VALIDATE] =
      .ok (transitionTo (clock 8) (scnCtx7 env clock jdText resumeText) .DONE)
        [.PARSE_JD, .PARSE_RESUME, .ANALYZE_FIT, .GENERATE_OUTPUTS, .VALIDATE,
         .GENERATE_OUTPUTS, .VALIDATE, .DONE]
    rw [agent_step_terminal (createAgentGraph env) clock 9 8
      (scnCtx7 env clock jdText resumeText) .DONE
      [.PARSE_JD, .PARSE_RESUME, .ANALYZE_FIT, .GENERATE_OUTPUTS, .VALIDATE,
       .GENERATE_OUTPUTS, .VALIDATE] rfl]
    rfl
  -- History shape, stepwise.
  have hh4 : (scnCtx4 env clock jdText resumeText).stateHistory.map HistoryEntry.state =
      [.INTAKE, .PARSE_JD, .PARSE_RESUME, .ANALYZE_FIT, .GENERATE_OUTPUTS] := rfl
  have hh5 : (scnCtx5 env clock jdText resumeText).stateHistory.map HistoryEntry.state =
      [.INTAKE, .PARSE_JD, .PARSE_RESUME, .ANALYZE_FIT, .GENERATE_OUTPUTS, .VALIDATE] := by
    rw [hscn5]
    show (transitionTo (clock 5) (scnCtx4 env clock jdText resumeText) .VALIDATE).stateHistory.map
      HistoryEntry.state = _
    simp [transitionTo, closeLast_map_state, hh4]
  have hh6 : (scnCtx6 env clock jdText resumeText).stateHistory.map HistoryEntry.state =
      [.INTAKE, .PARSE_JD, .PARSE_RESUME, .ANALYZE_FIT, .GENERATE_OUTPUTS, .VALIDATE,
       .GENERATE_OUTPUTS] := by
    show ((handleGenerateOutputs env (transitionTo (clock 6)
        (scnCtx5 env clock jdText resumeText) .GENERATE_OUTPUTS)).1).stateHistory.map
      HistoryEntry.state = _
    rw [handleGenerateOutputs_history]
    simp [transitionTo, closeLast_map_state, hh5]
  have hh7 : (scnCtx7 env clock jdText resumeText).stateHistory.map HistoryEntry.state =
      [.INTAKE, .PARSE_JD, .PARSE_RESUME, .ANALYZE_FIT, .GENERATE_OUTPUTS, .VALIDATE,
       .GENERATE_OUTPUTS, .VALIDATE] := by
    show ((handleValidate (transitionTo (clock 7)
        (scnCtx6 env clock jdText resumeText) .VALIDATE)).1).stateHistory.map HistoryEntry.state = _
    rw [h7fst]
    show (transitionTo (clock 7) (scnCtx6 env clock jdText resumeText) .VALIDATE).stateHistory.map
      HistoryEntry.state = _
    simp [transitionTo, closeLast_map_state, hh6]
  refine ⟨?_, ?_, ?_, ?_, ?_⟩
  · rw [hrun]; rfl
  · rw [hrun]; rfl
  · rw [hrun]
    show (scnCtx7 env clock jdText resumeText).validationAttempts = 2
    show ((handleValidate (transitionTo (clock 7)
        (scnCtx6 env clock jdText resumeText) .VALIDATE)).1).validationAttempts = 2
    rw [h7fst]
    show (transitionTo (clock 7) (scnCtx6 env clock jdText resumeText) .VALIDATE).validationAttempts = 2
    exact hatt6
  · rw [hrun]
    rfl
  · rw [hrun]
    show (transitionTo (clock 8) (scnCtx7 env clock jdText resumeText) .DONE).stateHistory.map
      HistoryEntry.state = _
    simp [transitionTo, closeLast_map_state, hh7]

/-- C1: the VALIDATE handler stores the freshly computed validation
result and returns DONE when it passed, retries to GENERATE_OUTPUTS when
it failed with fewer than `MAX_VALIDATION_ATTEMPTS = 2` attempts made,
and returns DONE anyway (best effort) once the attempts are exhausted.
Consequently, in a run whose validator fails on the first attempt and
passes on the second, the GENERATE_OUTPUTS handler executes exactly
twice (the callback and history list it exactly twice and the attempt
counter ends at 2) and the run ends in DONE. -/
theorem validate_retry_policy :
    (∀ (ctx : PipelineContext) (jd : ParsedJD), ctx.parsedJD = some jd →
      (handleValidate ctx).1.validation = some (validateOutputs ctx.outputs jd) ∧
      (handleValidate ctx).2 = Except.ok
        (if (validateOutputs ctx.outputs jd).passed then .DONE
         else if ctx.validationAttempts < MAX_VALIDATION_ATTEMPTS then .GENERATE_OUTPUTS
         else .DONE)) ∧
    (∀ (env : LLMEnv) (clock : Nat → Nat) (jdText resumeText : String),
      (validateOutputs (firstGen env) env.parsedJD).passed = false →
      (validateOutputs (secondGen env) env.parsedJD).passed = true →
      (runOrchestrator env clock jdText resumeText).isOk = true ∧
      (runOrchestrator env clock jdText resumeText).finalCtx.currentState = .DONE ∧
      (runOrchestrator env clock jdText resumeText).finalCtx.validationAttempts = 2 ∧
      (runOrchestrator env clock jdText resumeText).notified =
        [.PARSE_JD, .PARSE_RESUME, .ANALYZE_FIT, .GENERATE_OUTPUTS, .VALIDATE,
         .GENERATE_OUTPUTS, .VALIDATE, .DONE] ∧
      (runOrchestrator env clock jdText resumeText).finalCtx.stateHistory.map HistoryEntry.state =
        [.INTAKE, .PARSE_JD, .PARSE_RESUME, .ANALYZE_FIT, .GENERATE_OUTPUTS, .VALIDATE,
         .GENERATE_OUTPUTS, .VALIDATE, .DONE]) := by
  constructor
  · intro ctx jd hjd
    obtain ⟨h1, h2⟩ := handleValidate_result ctx jd hjd
    refine ⟨?_, h2⟩
    rw [h1]
  · intro env clock jdText resumeText hv1 hv2
    exact scenario_retry_then_done env clock jdText resumeText hv1 hv2

set_option maxRecDepth 10000 in
set_option maxHeartbeats 1600000 in
/-- C1 witness: at a fresh context holding `jd0` with empty outputs, the
VALIDATE handler retries to GENERATE_OUTPUTS; and the concrete
environment `env0` — failing generators on attempt 1, passing ones on
attempt 2 — runs to DONE with exactly 2 generation attempts. -/
theorem validate_retry_policy_witness :
    (handleValidate { ctx0 with parsedJD := some jd0 }).2 =
      Except.ok AgentState.GENERATE_OUTPUTS ∧
    (runOrchestrator env0 clock0 ("jd") ("resume")).finalCtx.currentState = .DONE ∧
    (runOrchestrator env0 clock0 ("jd") ("resume")).finalCtx.validationAttempts = 2 ∧
    (runOrchestrator env0 clock0 ("jd") ("resume")).notified =
      [.PARSE_JD, .PARSE_RESUME, .ANALYZE_FIT, .GENERATE_OUTPUTS, .VALIDATE,
       .GENERATE_OUTPUTS, .VALIDATE, .DONE] := by
  constructor
  · have h := (validate_retry_policy.1 { ctx0 with parsedJD := some jd0 } jd0 rfl).2
    rw [h]
    exact congrArg Except.ok (by decide)
  · obtain ⟨ho, hdone, hatt, hnotif, hhist⟩ :=
      validate_retry_policy.2 env0 clock0 ("jd") ("resume") (by decide) (by decide)
    exact ⟨hdone, hatt, hnotif⟩

end JobFit
